import Mathlib

/-!
Verification of the dynamic schema synchronization and upsert engine of the
integration server. The definitions below are a shallow embedding of
`src/services/supabase_service.py` (class `SupabaseService`) and
`src/models/base_models.py` (`ColumnDefinition`, `TableSchema`).

Database effects are modelled by an environment `DBEnv` that fixes the outcome
of every statement execution (indexed by a call counter, so that outcomes may
change after DDL), and every operation additionally returns the list of
`DBAction`s it performed, so that claims about which statements are issued can
be stated as properties of that trace.

Python strings are modelled over their character lists; `str.strip`,
`str.lower` (ASCII fragment) and `str.replace` for single characters are
reproduced below.
-/

/- ### Python string primitives -/

/-- The whitespace characters recognised by Python's `str.strip()`. -/
def pyIsSpace (c : Char) : Bool :=
  c = ' ' || c = '\t' || c = '\n' || c = '\x0b' || c = '\x0c' || c = '\r'

/-- Python `str.strip()` on the character list: drop leading and trailing whitespace. -/
def pyStripList (l : List Char) : List Char :=
  ((l.dropWhile pyIsSpace).reverse.dropWhile pyIsSpace).reverse

def pyStrip (s : String) : String := ⟨pyStripList s.data⟩

/-- ASCII fragment of Python's `str.lower()`, written by explicit table so that
facts such as `pyLowerChar c = ' ' → c = ' '` are provable by case split. -/
def pyLowerChar (c : Char) : Char :=
  if c = 'A' then 'a' else if c = 'B' then 'b' else if c = 'C' then 'c'
  else if c = 'D' then 'd' else if c = 'E' then 'e' else if c = 'F' then 'f'
  else if c = 'G' then 'g' else if c = 'H' then 'h' else if c = 'I' then 'i'
  else if c = 'J' then 'j' else if c = 'K' then 'k' else if c = 'L' then 'l'
  else if c = 'M' then 'm' else if c = 'N' then 'n' else if c = 'O' then 'o'
  else if c = 'P' then 'p' else if c = 'Q' then 'q' else if c = 'R' then 'r'
  else if c = 'S' then 's' else if c = 'T' then 't' else if c = 'U' then 'u'
  else if c = 'V' then 'v' else if c = 'W' then 'w' else if c = 'X' then 'x'
  else if c = 'Y' then 'y' else if c = 'Z' then 'z' else c

def pyLower (s : String) : String := ⟨s.data.map pyLowerChar⟩

/-- Python `str.replace(a, b)` for single characters. -/
def replaceChar (a b : Char) (s : String) : String :=
  ⟨s.data.map (fun c => if c = a then b else c)⟩

/-- Python `str.startswith(p)`. -/
def pyStartsWith (s p : String) : Bool := p.data.isPrefixOf s.data

/-- Python `p in s` for strings (substring containment). -/
def containsSub (s p : String) : Bool :=
  (List.range (s.data.length + 1)).any (fun i => p.data.isPrefixOf (s.data.drop i))

/-- Python `str.join` on a list of strings (used for the join of `columns_sql`
call in `get_create_table_sql`). -/
def joinSep (sep : String) : List String → String
  | [] => ""
  | [a] => a
  | a :: b :: rest => a ++ sep ++ joinSep sep (b :: rest)

/- ### Data model: `src/models/base_models.py` -/

/-- The `ColumnType` enum (base_models.py, lines 10-22); `use_enum_values` makes the
stored value the string below. -/
inductive ColumnType where
  | integer | bigint | varchar | text | boolean | timestamp
  | date | decimal | real | json | uuid
deriving DecidableEq, Repr

def ColumnType.toStr : ColumnType → String
  | .integer => "integer"
  | .bigint => "bigint"
  | .varchar => "varchar"
  | .text => "text"
  | .boolean => "boolean"
  | .timestamp => "timestamp"
  | .date => "date"
  | .decimal => "decimal"
  | .real => "real"
  | .json => "json"
  | .uuid => "uuid"

/-- The type of `default_value: Optional[Union[str, int, bool]]`. -/
inductive DefaultValue where
  | str (s : String)
  | int (n : Int)
  | bool (b : Bool)
deriving DecidableEq, Repr

/-- The `ColumnDefinition` model (base_models.py, lines 41-65), after pydantic
validation. `created_at`-style metadata does not exist here. -/
structure ColumnDefinition where
  name : String
  type : ColumnType
  nullable : Bool
  primary_key : Bool
  unique : Bool
  default_value : Option DefaultValue
  max_length : Option Nat
deriving DecidableEq, Repr

/-- Validator `validate_column_name` (base_models.py, lines 52-58): reject empty or
whitespace-only names, else `v.strip().lower().replace(' ', '_')`. -/
def validate_column_name (v : String) : Except String String :=
  if (pyStrip v).data = [] then .error "Nome da coluna não pode estar vazio"
  else .ok (replaceChar ' ' '_' (pyLower (pyStrip v)))

/-- Validator `validate_max_length` (base_models.py, lines 60-65): default 255 for
varchar. -/
def validate_max_length (t : ColumnType) (v : Option Nat) : Option Nat :=
  if t = ColumnType.varchar ∧ v = none then some 255 else v

/-- Constructing a `ColumnDefinition` through the pydantic validators. -/
def ColumnDefinition.make (name : String) (type : ColumnType) (nullable : Bool)
    (primary_key : Bool) (unique : Bool) (default_value : Option DefaultValue)
    (max_length : Option Nat) : Except String ColumnDefinition :=
  match validate_column_name name with
  | .error e => .error e
  | .ok n =>
      .ok { name := n, type := type, nullable := nullable,
            primary_key := primary_key, unique := unique,
            default_value := default_value,
            max_length := validate_max_length type max_length }

/-- The `TableSchema` model (base_models.py, lines 67-101) after validation; the
`created_at` timestamp field is metadata with no role in any operation and is
omitted. -/
structure TableSchema where
  name : String
  columns : List ColumnDefinition
  client_id : String
deriving DecidableEq, Repr

/-- Validator `validate_table_name` (base_models.py, lines 75-80). -/
def validate_table_name (v : String) : Except String String :=
  if (pyStrip v).data = [] then .error "Nome da tabela não pode estar vazio"
  else .ok (replaceChar ' ' '_' (pyLower (pyStrip v)))

/-- The synthetic generated-identifier primary key column inserted by
`validate_columns` (base_models.py, lines 92-99). -/
def syntheticIdColumn : ColumnDefinition :=
  { name := "id", type := .uuid, nullable := false, primary_key := true,
    unique := false, default_value := some (.str "gen_random_uuid()"),
    max_length := none }

/-- Validator `validate_columns` (base_models.py, lines 82-101): reject an empty column
list; if no column is flagged primary, prepend the synthetic id column. -/
def validate_columns (v : List ColumnDefinition) :
    Except String (List ColumnDefinition) :=
  if v = [] then .error "Tabela deve ter pelo menos uma coluna"
  else if v.filter (fun c => c.primary_key) = [] then .ok (syntheticIdColumn :: v)
  else .ok v

/-- Constructing a `TableSchema` through the pydantic validators (field order:
`name`, then `columns`). -/
def TableSchema.make (name : String) (columns : List ColumnDefinition)
    (client_id : String) : Except String TableSchema :=
  match validate_table_name name with
  | .error e => .error e
  | .ok n =>
      match validate_columns columns with
      | .error e => .error e
      | .ok cols => .ok { name := n, columns := cols, client_id := client_id }

def quoteIdent (s : String) : String := "\"" ++ s ++ "\""

/-- The per-column fragment of `get_create_table_sql` (base_models.py, lines
107-131): type, varchar length (skipped for a falsy `0`), NOT NULL, default
(the literal `gen_random_uuid()` unquoted, other strings quoted), UNIQUE. -/
def columnSql (col : ColumnDefinition) : String :=
  let s := quoteIdent col.name ++ " " ++ col.type.toStr
  let s :=
    match col.type, col.max_length with
    | .varchar, some n => if n ≠ 0 then s ++ "(" ++ toString n ++ ")" else s
    | _, _ => s
  let s := if col.nullable then s else s ++ " NOT NULL"
  let s :=
    match col.default_value with
    | none => s
    | some (.str d) =>
        if d = "gen_random_uuid()" then s ++ " DEFAULT " ++ d
        else s ++ " DEFAULT \x27" ++ d ++ "\x27"
    | some (.int n) => s ++ " DEFAULT " ++ toString n
    | some (.bool b) => s ++ " DEFAULT " ++ (if b then "True" else "False")
  if col.unique then s ++ " UNIQUE" else s

/-- The trailing `PRIMARY KEY (...)` element of `columns_sql` (base_models.py,
lines 133-137). -/
def primaryKeyClause (cols : List ColumnDefinition) : List String :=
  let pks := (cols.filter (fun c => c.primary_key)).map (fun c => c.name)
  if pks = [] then []
  else ["PRIMARY KEY (" ++ joinSep ", " (pks.map quoteIdent) ++ ")"]

/-- Method `get_create_table_sql` (base_models.py, lines 103-139). -/
def TableSchema.get_create_table_sql (schema : TableSchema) : String :=
  let columns_sql := schema.columns.map columnSql ++ primaryKeyClause schema.columns
  "CREATE TABLE IF NOT EXISTS " ++ quoteIdent schema.name ++ " (\n  " ++
    joinSep ",\n  " columns_sql ++ "\n);"

/- ### Incoming records and schema inference
     (`SupabaseService._infer_schema_from_data`, supabase_service.py 497-536) -/

/-- A Python value as classified by the `isinstance` chain of
`_infer_schema_from_data`. `pyBool` must precede `pyInt` because Python's
`bool` is a subclass of `int` and the code tests `bool` first. `pyNone` and
`pyNested` (lists/dicts) both fall into the final `else`. -/
inductive PyValue where
  | pyBool (b : Bool)
  | pyInt (n : Int)
  | pyFloat
  | pyDatetime
  | pyStr (s : String)
  | pyNone
  | pyNested
deriving DecidableEq, Repr

/-- One incoming record: a Python dict in insertion order. -/
abbrev Record := List (String × PyValue)

/-- The `isinstance` chain (supabase_service.py, lines 510-519): bool →
boolean, int → bigint, float → real, datetime → timestamp, everything else
(all strings included) → text. -/
def pgTypeOf : PyValue → ColumnType
  | .pyBool _ => .boolean
  | .pyInt _ => .bigint
  | .pyFloat => .real
  | .pyDatetime => .timestamp
  | .pyStr _ => .text
  | .pyNone => .text
  | .pyNested => .text

/-- Python dict assignment `d[k] = v`: replace in place if the key exists,
else append. -/
def dictInsert (k : String) (v : ColumnDefinition) :
    List (String × ColumnDefinition) → List (String × ColumnDefinition)
  | [] => [(k, v)]
  | (k0, v0) :: rest =>
      if k0 = k then (k, v) :: rest else (k0, v0) :: dictInsert k v rest

/-- Python `k in d` on a dict / record. -/
def dictHasKey (k : String) (r : List (String × PyValue)) : Bool :=
  r.any (fun kv => kv.1 = k)

/-- Python `d.pop(k)`: remove the entry for `k`, returning it. -/
def dictPop (k : String) : List (String × ColumnDefinition) →
    Option (ColumnDefinition × List (String × ColumnDefinition))
  | [] => none
  | (k0, v0) :: rest =>
      if k0 = k then some (v0, rest)
      else
        match dictPop k rest with
        | none => none
        | some (v, rest2) => some (v, (k0, v0) :: rest2)

/-- The `for key, value in sample.items()` loop of `_infer_schema_from_data`
(lines 508-528): the primary-key flag is `key.lower() == 'id'` when the sample
has an exact `'id'` key, else `len(columns_definition) == 0` at insertion
time. A pydantic `ValueError` from `ColumnDefinition` propagates. -/
def inferLoop (hasId : Bool) :
    Record → List (String × ColumnDefinition) →
    Except String (List (String × ColumnDefinition))
  | [], acc => .ok acc
  | (key, value) :: rest, acc =>
      let pg_type := pgTypeOf value
      let is_primary_key : Bool :=
        if hasId then decide (pyLower key = "id") else decide (acc.length = 0)
      match ColumnDefinition.make key pg_type true is_primary_key false none none with
      | .error e => .error e
      | .ok cd => inferLoop hasId rest (dictInsert key cd acc)

/-- Method `_infer_schema_from_data` (supabase_service.py, lines 497-536). The empty
`data` branch constructs `TableSchema(columns=[])`, which pydantic rejects;
this surfaces as the `Except.error` of `TableSchema.make`. -/
def _infer_schema_from_data (empresa_id table_name : String)
    (data : List Record) : Except String TableSchema :=
  match data with
  | [] => TableSchema.make table_name [] empresa_id
  | sample :: _ =>
      let has_id_column := dictHasKey "id" sample
      match inferLoop has_id_column sample [] with
      | .error e => .error e
      | .ok columns_definition =>
          let columns_definition :=
            if has_id_column then
              match dictPop "id" columns_definition with
              | some (id_column, rest) => ("id", id_column) :: rest
              | none => columns_definition
            else columns_definition
          TableSchema.make table_name (columns_definition.map Prod.snd) empresa_id

/- ### Database layer -/

/-- A result row, as the `dict(row)` conversion in `execute_query` produces
it: column name to value (values of interest here are identifier strings). -/
abbrev Row := List (String × String)

/-- The outcome environment for one `upsert_data` run.

* `poolOk` — whether `get_connection_pool` yields a pool (`None` otherwise);
* `run n q` — outcome of the `n`-th statement actually sent to a pooled
  connection (`connection.execute` / `connection.fetch`): result rows, or the
  exception message it raises;
* `clientOk` — whether `get_client_connection` yields a REST client (that
  helper catches its own errors and returns `None` on failure);
* `writeRes` — outcome of the final REST write
  (`client.table(...).upsert(...)/.insert(...).execute()`): either a raised
  exception message, or the response's `data` rows together with the optional
  `error.message`. -/
structure DBEnv where
  poolOk : Bool
  run : Nat → String → Except String (List Row)
  clientOk : Bool
  writeRes : Except String (List Row × Option String)

/-- The observable actions of one run, in order. `notifyReload` is the
`NOTIFY pgrst, 'reload schema'` that `execute_query` itself issues after any
DDL statement (supabase_service.py, line 246). -/
inductive DBAction where
  | connectClient
  | sqlExec (q : String)
  | sqlFetch (q : String)
  | notifyReload
  | invalidateConn
  | sleepSecs (n : Nat)
  | upsertWrite (table : String) (conflict : String) (data : List Record)
  | insertWrite (table : String) (data : List Record)
deriving DecidableEq, Repr

/-- The DDL test `query.strip().lower().startswith(("create ", "alter ", "drop "))`
(supabase_service.py, line 238). -/
def isDDL (q : String) : Bool :=
  pyStartsWith (pyLower (pyStrip q)) "create " ||
  pyStartsWith (pyLower (pyStrip q)) "alter " ||
  pyStartsWith (pyLower (pyStrip q)) "drop "

/-- Method `execute_query` (supabase_service.py, lines 224-274), relative to the
`n`-th statement slot. Returns `.ok none` when no pool could be obtained
(the Python function returns `None`), `.error` when the statement raises
(re-raised to the caller), and `.ok (some rows)` otherwise. For DDL the
result list is empty and a schema-reload NOTIFY is attempted afterwards,
its own failure swallowed. -/
def execute_query (env : DBEnv) (n : Nat) (q : String) :
    Except String (Option (List Row)) × List DBAction × Nat :=
  if env.poolOk = false then (.ok none, [], n)
  else if isDDL q then
    match env.run n q with
    | .error e => (.error e, [.sqlExec q], n + 1)
    | .ok _ => (.ok (some []), [.sqlExec q, .notifyReload], n + 1)
  else
    match env.run n q with
    | .error e => (.error e, [.sqlFetch q], n + 1)
    | .ok rows => (.ok (some rows), [.sqlFetch q], n + 1)

/-- The probe statement of `table_exists_postgres` (line 402). -/
def probeSql (table_name : String) : String :=
  "SELECT 1 FROM public.\"" ++ table_name ++ "\" LIMIT 1;"

/-- Method `table_exists_postgres` (supabase_service.py, lines 400-417): `True` when
the probe call completes, `False` on any exception — the undefined-table
message is distinguished only for logging, both branches return `False`. -/
def table_exists_postgres (env : DBEnv) (n : Nat) (table_name : String) :
    Bool × List DBAction × Nat :=
  let (r, tr, n') := execute_query env n (probeSql table_name)
  match r with
  | .ok _ => (true, tr, n')
  | .error e =>
      if containsSub e "UndefinedTableError" || containsSub e "does not exist"
      then (false, tr, n')
      else (false, tr, n')

/-- The catalog statement of `_get_table_schema_from_db` (lines 542-546). -/
def schemaColsSql (table_name : String) : String :=
  "SELECT column_name\nFROM information_schema.columns\n" ++
    "WHERE table_schema = \x27public\x27 AND table_name = \x27" ++ table_name ++ "\x27;"

/-- The `[row['column_name'] for row in result]` comprehension: a missing key
raises `KeyError`, which propagates out of `_get_table_schema_from_db`. -/
def extractColumnNames : List Row → Except String (List String)
  | [] => .ok []
  | r :: rest =>
      match r.lookup "column_name" with
      | none => .error "KeyError: column_name"
      | some v =>
          match extractColumnNames rest with
          | .error e => .error e
          | .ok vs => .ok (v :: vs)

/-- Method `_get_table_schema_from_db` (supabase_service.py, lines 538-550): returns
`[]` when `execute_query` yields `None`. -/
def _get_table_schema_from_db (env : DBEnv) (n : Nat) (table_name : String) :
    Except String (List String) × List DBAction × Nat :=
  let (r, tr, n') := execute_query env n (schemaColsSql table_name)
  match r with
  | .error e => (.error e, tr, n')
  | .ok none => (.ok [], tr, n')
  | .ok (some rows) => (extractColumnNames rows, tr, n')

/-- The primary-key catalog statement of `_get_primary_key_column` after the
`query.replace('$1', ...)` substitution (lines 556-570). -/
def pkSql (table_name : String) : String :=
  "SELECT \n    kcu.column_name\nFROM information_schema.table_constraints tc\n" ++
    "JOIN information_schema.key_column_usage kcu \n" ++
    "    ON tc.constraint_name = kcu.constraint_name\n" ++
    "    AND tc.table_schema = kcu.table_schema\n" ++
    "WHERE tc.table_schema = \x27public\x27 \n    AND tc.table_name = \x27" ++
    table_name ++ "\x27\n    AND tc.constraint_type = \x27PRIMARY KEY\x27\nLIMIT 1;"

/-- Method `_get_primary_key_column` (supabase_service.py, lines 552-580): inside its
own `try`, so a raised statement, a `None`/empty result and a missing
`column_name` key all yield `None`. -/
def _get_primary_key_column (env : DBEnv) (n : Nat) (table_name : String) :
    Option String × List DBAction × Nat :=
  let (r, tr, n') := execute_query env n (pkSql table_name)
  match r with
  | .error _ => (none, tr, n')
  | .ok none => (none, tr, n')
  | .ok (some []) => (none, tr, n')
  | .ok (some (row :: _)) =>
      match row.lookup "column_name" with
      | some c => (some c, tr, n')
      | none => (none, tr, n')

/-- The per-column DDL of `_compare_and_alter_table` (line 592). -/
def alterSql (table_name : String) (c : ColumnDefinition) : String :=
  "ALTER TABLE public.\"" ++ table_name ++ "\" ADD COLUMN \"" ++ c.name ++
    "\" " ++ c.type.toStr ++ ";"

/-- The `for column in inferred_schema.columns` loop of
`_compare_and_alter_table` (lines 589-594): one ALTER per column whose name is
not among the live columns; a raised ALTER aborts the loop. -/
def alterLoop (env : DBEnv) (table_name : String) (existing : List String) :
    Nat → List ColumnDefinition → Except String Unit × List DBAction × Nat
  | n, [] => (.ok (), [], n)
  | n, c :: rest =>
      if existing.contains c.name then alterLoop env table_name existing n rest
      else
        let (r, tr, n') := execute_query env n (alterSql table_name c)
        match r with
        | .error e => (.error e, tr, n')
        | .ok _ =>
            let (r2, tr2, n2) := alterLoop env table_name existing n' rest
            (r2, tr ++ tr2, n2)

/-- Method `_compare_and_alter_table` (supabase_service.py, lines 582-597). -/
def _compare_and_alter_table (env : DBEnv) (n : Nat) (table_name : String)
    (inferred_schema : TableSchema) : Except String Unit × List DBAction × Nat :=
  let (ex, tr, n') := _get_table_schema_from_db env n table_name
  match ex with
  | .error e => (.error e, tr, n')
  | .ok existing_columns =>
      let (r, tr2, n2) :=
        alterLoop env table_name existing_columns n' inferred_schema.columns
      (r, tr ++ tr2, n2)

/- ### The upsert orchestrator (`upsert_data`, supabase_service.py 419-495) -/

structure UpsertResult where
  success : Bool
  message : String
  count : Nat
deriving DecidableEq, Repr

/-- The literal statement text of the explicit reload request issued by
`upsert_data` (line 445); not a DDL statement, so `execute_query` sends it
through `connection.fetch`. -/
def notifySql : String := "NOTIFY pgrst, \x27reload schema\x27"

def unexpectedMsg (t e : String) : String :=
  "Erro inesperado durante o processo de upsert para a tabela \x27" ++ t ++ "\x27: " ++ e

/-- The final write step of `upsert_data` (lines 468-485): resolve the live
primary-key column, then upsert on it, or plain-insert when there is none. -/
def doWrite (env : DBEnv) (n : Nat) (table_name : String) (data : List Record) :
    UpsertResult × List DBAction :=
  let pk_column := (_get_primary_key_column env n table_name).1
  let tr := (_get_primary_key_column env n table_name).2.1
  let act :=
    match pk_column with
    | some c => DBAction.upsertWrite table_name c data
    | none => DBAction.insertWrite table_name data
  match env.writeRes with
  | .error e => (⟨false, unexpectedMsg table_name e, 0⟩, tr ++ [act])
  | .ok (rows, errOpt) =>
      if rows.isEmpty then
        (⟨false, "Falha ao inserir dados em \x27" ++ table_name ++ "\x27. Erro: " ++
            errOpt.getD "desconhecido", 0⟩, tr ++ [act])
      else
        (⟨true, toString rows.length ++
            " registros inseridos/atualizados com sucesso em \x27" ++ table_name ++ "\x27.",
          rows.length⟩, tr ++ [act])

/-- Method `upsert_data` (supabase_service.py, lines 419-495). Returns the
`(success, message, count)` triple together with the trace of performed
actions. Statement slots are numbered from 0 in execution order. -/
def upsert_data (env : DBEnv) (empresa_id table_name : String)
    (data : List Record) : UpsertResult × List DBAction :=
  if data.isEmpty then (⟨true, "Nenhum dado fornecido.", 0⟩, [])
  else
    if env.clientOk = false then
      (⟨false, "Não foi possível obter conexão para a empresa " ++ empresa_id ++ ".", 0⟩,
        [.connectClient])
    else
      let (table_exists, trP, n1) := table_exists_postgres env 0 table_name
      let tr := DBAction.connectClient :: trP
      match _infer_schema_from_data empresa_id table_name data with
      | .error e => (⟨false, unexpectedMsg table_name e, 0⟩, tr)
      | .ok inferred_schema =>
          if table_exists = false then
            let create_sql := inferred_schema.get_create_table_sql
            let (r1, trC, n2) := execute_query env n1 create_sql
            let tr := tr ++ trC
            match r1 with
            | .error e => (⟨false, unexpectedMsg table_name e, 0⟩, tr)
            | .ok _ =>
                let (r2, trN, n3) := execute_query env n2 notifySql
                let tr := tr ++ trN
                match r2 with
                | .error e => (⟨false, unexpectedMsg table_name e, 0⟩, tr)
                | .ok _ =>
                    let tr := tr ++ [.invalidateConn, .sleepSecs 1, .connectClient]
                    if env.clientOk = false then
                      (⟨false, "Não foi possível re-obter conexão para a empresa " ++
                          empresa_id ++ " após criação de tabela.", 0⟩, tr)
                    else
                      let (exists2, trP2, n4) := table_exists_postgres env n3 table_name
                      let tr := tr ++ trP2
                      if exists2 = false then
                        (⟨false, "Falha ao criar a tabela \x27" ++ table_name ++
                            "\x27 mesmo após notificação e reconexão.", 0⟩, tr)
                      else
                        let (res, trW) := doWrite env n4 table_name data
                        (res, tr ++ trW)
          else
            let (ra, trA, nA) := _compare_and_alter_table env n1 table_name inferred_schema
            let tr := tr ++ trA
            match ra with
            | .error e => (⟨false, unexpectedMsg table_name e, 0⟩, tr)
            | .ok _ =>
                let (res, trW) := doWrite env nA table_name data
                (res, tr ++ trW)

/- ### Action classifiers used in the statements -/

/-- An action that changes table structure: a statement routed through
`execute_query` whose text is classified as DDL. -/
def isSchemaChanging : DBAction → Bool
  | .sqlExec q => isDDL q
  | .sqlFetch q => isDDL q
  | _ => false

/-- A write of record data (the REST upsert or insert call). -/
def isWriteAction : DBAction → Bool
  | .upsertWrite _ _ _ => true
  | .insertWrite _ _ => true
  | _ => false

/-- A PostgREST metadata-reload signal: either the NOTIFY that
`execute_query` itself sends after DDL, or an explicitly executed
`NOTIFY pgrst, ...` statement. -/
def isReloadSignal : DBAction → Bool
  | .notifyReload => true
  | .sqlFetch q => q == notifySql
  | .sqlExec q => q == notifySql
  | _ => false

/- ### Spec-side reference definitions (for refinement comparisons) -/

/-- Modelled from the spec: "string of length ≥10 containing `-` or `/` that
successfully parses as a date/time value". The parse test is realised as a
simple ISO `YYYY-MM-DD` prefix recognizer, which accepts the ordinary
date strings the spec sentence is about. -/
def specParsesAsDateTime (s : String) : Bool :=
  match s.data with
  | y1 :: y2 :: y3 :: y4 :: '-' :: m1 :: m2 :: '-' :: d1 :: d2 :: _ =>
      y1.isDigit && y2.isDigit && y3.isDigit && y4.isDigit &&
      m1.isDigit && m2.isDigit && d1.isDigit && d2.isDigit
  | _ => false

/-- Modelled from the spec (§4.2 type mapping, claim C4): the claimed
per-value type mapping, including the date-like-string-to-timestamp rule that
the claim attributes to schema inference. -/
def specInferType : PyValue → ColumnType
  | .pyBool _ => .boolean
  | .pyInt _ => .bigint
  | .pyFloat => .real
  | .pyDatetime => .timestamp
  | .pyStr s =>
      if s.length ≥ 10 && (containsSub s "-" || containsSub s "/") &&
          specParsesAsDateTime s
      then .timestamp else .text
  | .pyNone => .text
  | .pyNested => .text

/-- Modelled from the spec (claim C8): "trimming surrounding whitespace,
lowercasing, replacing every non-alphanumeric character with an underscore,
and forcing a leading letter" (the repository's only leading-letter scheme,
`security_service.sanitize_column_name`, prepends `col_`). -/
def specNormalizeColumnName (s : String) : String :=
  let t := (pyStripList s.data).map
    (fun c => if c.isAlphanum then pyLowerChar c else '_')
  match t with
  | [] => "col_"
  | c :: _ => if c.isAlpha then ⟨t⟩ else "col_" ++ ⟨t⟩

/-- The normalization the code actually performs, phrased from the amended
claim's words: trim surrounding whitespace, then lowercase each character,
turning each space into an underscore; no other character is replaced and no
leading letter is forced. -/
def amendedNormalizeColumnName (s : String) : String :=
  ⟨(pyStripList s.data).map (fun c => if c = ' ' then '_' else pyLowerChar c)⟩

/- ### Concrete fixtures used by witnesses and counterexamples -/

/-- Environment in which table `orders` does not exist (the probe always
raises) while every other statement succeeds: the creation re-check keeps
failing. -/
def envC2 : DBEnv :=
  { poolOk := true
    clientOk := true
    run := fun _ q =>
      if q = probeSql "orders" then .error "relation \x22orders\x22 does not exist"
      else .ok []
    writeRes := .ok ([], none) }

def dataC2 : List Record := [[("id", PyValue.pyInt 1), ("total", PyValue.pyFloat)]]

/-- Environment in which table `orders` exists and its catalog primary key is
column `id`. -/
def envPkFound : DBEnv :=
  { poolOk := true
    clientOk := true
    run := fun _ q =>
      if q = pkSql "orders" then .ok [[("column_name", "id")]] else .ok []
    writeRes := .ok ([[("id", "1")]], none) }

/-- Environment in which the primary-key catalog query itself raises. -/
def envPkErr : DBEnv :=
  { poolOk := true
    clientOk := true
    run := fun _ q =>
      if q = pkSql "orders" then .error "timeout acquiring connection" else .ok []
    writeRes := .ok ([[("id", "1")]], none) }

/-- Environment in which table `metrics` exists with live columns
`ts`, `value`. -/
def envMetrics : DBEnv :=
  { poolOk := true
    clientOk := true
    run := fun _ q =>
      if q = schemaColsSql "metrics" then
        .ok [[("column_name", "ts")], [("column_name", "value")]]
      else .ok []
    writeRes := .ok ([[("ts", "0")]], none) }

def recW : Record := [("id", PyValue.pyInt 1), ("total", PyValue.pyFloat)]

def dataW : List Record := [recW]

/-- The schema `_infer_schema_from_data` produces for `dataW` on table
`orders` of tenant `acme`. -/
def schW : TableSchema :=
  { name := "orders"
    columns :=
      [{ name := "id", type := .bigint, nullable := true, primary_key := true,
         unique := false, default_value := none, max_length := none },
       { name := "total", type := .real, nullable := true, primary_key := false,
         unique := false, default_value := none, max_length := none }]
    client_id := "acme" }

/-- A plain text column with no primary-key flag (for the synthetic-id
witness). -/
def colX : ColumnDefinition :=
  { name := "x", type := .text, nullable := true, primary_key := false,
    unique := false, default_value := none, max_length := none }

/-- The schema `TableSchema.make "events" [colX] "acme"` produces: the
synthetic id column is prepended. -/
def schX : TableSchema :=
  { name := "events", columns := [syntheticIdColumn, colX],
    client_id := "acme" }

/-- An inferred schema for table `metrics`: live columns `ts`, `value` plus a
new `tag` column. -/
def schMetrics : TableSchema :=
  { name := "metrics"
    columns :=
      [{ name := "ts", type := .timestamp, nullable := true, primary_key := true,
         unique := false, default_value := none, max_length := none },
       { name := "value", type := .real, nullable := true, primary_key := false,
         unique := false, default_value := none, max_length := none },
       { name := "tag", type := .text, nullable := true, primary_key := false,
         unique := false, default_value := none, max_length := none }]
    client_id := "acme" }

/- ### Classification of the statement texts -/

theorem data_append (s u : String) : (s ++ u).data = s.data ++ u.data := rfl

theorem isPrefixOf_append {p l : List Char} (z : List Char)
    (h : p.isPrefixOf l = true) : p.isPrefixOf (l ++ z) = true := by
  induction p generalizing l with
  | nil => simp [List.isPrefixOf]
  | cons a as ih =>
      cases l with
      | nil => simp [List.isPrefixOf] at h
      | cons b bs =>
          simp only [List.isPrefixOf, Bool.and_eq_true] at h ⊢
          exact ⟨h.1, ih h.2⟩

theorem dropWhile_append_last {p : Char → Bool} {b : Char} (hb : p b = false) :
    ∀ xs : List Char, ∃ t, List.dropWhile p (xs ++ [b]) = t ++ [b] := by
  intro xs
  induction xs with
  | nil => exact ⟨[], by simp [List.dropWhile, hb]⟩
  | cons x xs ih =>
      by_cases hx : p x = true
      · obtain ⟨t, ht⟩ := ih
        exact ⟨t, by simp [List.dropWhile_cons, hx, ht]⟩
      · exact ⟨x :: xs, by simp [List.dropWhile_cons, hx]⟩

/-- Stripping does not change a list that starts and ends with
non-whitespace. -/
theorem pyStripList_shape (a b : Char) (mid : List Char)
    (ha : pyIsSpace a = false) (hb : pyIsSpace b = false) :
    pyStripList (a :: (mid ++ [b])) = a :: (mid ++ [b]) := by
  unfold pyStripList
  rw [List.dropWhile_cons]
  simp only [ha, Bool.false_eq_true, if_false]
  rw [show (a :: (mid ++ [b])).reverse = b :: (mid.reverse ++ [a]) by simp]
  rw [List.dropWhile_cons]
  simp [hb]

theorem isPrefixOf_cons_false {x y : Char} {xs l : List Char}
    (h : (x == y) = false) : (x :: xs).isPrefixOf (y :: l) = false := by
  simp only [List.isPrefixOf, h, Bool.false_and]

/-- A statement whose stripped text begins with a letter other than
c/a/d (lowered) is not DDL. -/
theorem isDDL_shape_false (a : Char) (mid : List Char) (b : Char)
    (ha : pyIsSpace a = false) (hb : pyIsSpace b = false)
    (hc : (('c' : Char) == pyLowerChar a) = false)
    (hA : (('a' : Char) == pyLowerChar a) = false)
    (hd : (('d' : Char) == pyLowerChar a) = false) :
    isDDL ⟨a :: (mid ++ [b])⟩ = false := by
  unfold isDDL pyStartsWith pyLower pyStrip
  show ((("create ".data.isPrefixOf _ : Bool) || _) || _) = false
  rw [show (String.mk (a :: (mid ++ [b]))).data = a :: (mid ++ [b]) from rfl,
      pyStripList_shape a b mid ha hb]
  simp only [List.map_cons]
  rw [isPrefixOf_cons_false hc, isPrefixOf_cons_false hA, isPrefixOf_cons_false hd]
  rfl

/-- A statement of the form `ALTER …` (ending in a non-space character) is
classified as DDL. -/
theorem isDDL_true_of_alter (rest : List Char) (b : Char)
    (hb : pyIsSpace b = false) :
    isDDL ⟨"ALTER ".data ++ (rest ++ [b])⟩ = true := by
  have hX : "ALTER ".data ++ (rest ++ [b]) = 'A' :: (("LTER ".data ++ rest) ++ [b]) := by
    simp [show "ALTER ".data = 'A' :: "LTER ".data from rfl]
  have hstrip : pyStripList ("ALTER ".data ++ (rest ++ [b])) =
      "ALTER ".data ++ (rest ++ [b]) := by
    rw [hX, pyStripList_shape 'A' b _ (by decide) hb]
  have hmap : List.map pyLowerChar ("ALTER ".data ++ (rest ++ [b])) =
      "alter ".data ++ List.map pyLowerChar (rest ++ [b]) := by
    rw [List.map_append]
    congr 1
  unfold isDDL pyStartsWith pyLower pyStrip
  rw [show (String.mk ("ALTER ".data ++ (rest ++ [b]))).data =
        "ALTER ".data ++ (rest ++ [b]) from rfl,
      hstrip]
  show ((_ || ("alter ".data.isPrefixOf _ : Bool)) || _) = true
  rw [hmap, isPrefixOf_append _ (by decide : "alter ".data.isPrefixOf "alter ".data = true)]
  simp

/-- A statement of the form `CREATE …` (ending in a non-space character) is
classified as DDL. -/
theorem isDDL_true_of_create (rest : List Char) (b : Char)
    (hb : pyIsSpace b = false) :
    isDDL ⟨"CREATE ".data ++ (rest ++ [b])⟩ = true := by
  have hX : "CREATE ".data ++ (rest ++ [b]) = 'C' :: (("REATE ".data ++ rest) ++ [b]) := by
    simp [show "CREATE ".data = 'C' :: "REATE ".data from rfl]
  have hstrip : pyStripList ("CREATE ".data ++ (rest ++ [b])) =
      "CREATE ".data ++ (rest ++ [b]) := by
    rw [hX, pyStripList_shape 'C' b _ (by decide) hb]
  have hmap : List.map pyLowerChar ("CREATE ".data ++ (rest ++ [b])) =
      "create ".data ++ List.map pyLowerChar (rest ++ [b]) := by
    rw [List.map_append]
    congr 1
  unfold isDDL pyStartsWith pyLower pyStrip
  rw [show (String.mk ("CREATE ".data ++ (rest ++ [b]))).data =
        "CREATE ".data ++ (rest ++ [b]) from rfl,
      hstrip]
  show ((("create ".data.isPrefixOf _ : Bool) || _) || _) = true
  rw [hmap, isPrefixOf_append _ (by decide : "create ".data.isPrefixOf "create ".data = true)]
  simp

theorem stringEqOfData {s u : String} (h : s.data = u.data) : s = u := by
  cases s
  cases u
  exact congrArg String.mk h

theorem isDDL_probeSql (t : String) : isDDL (probeSql t) = false := by
  have h : probeSql t =
      ⟨'S' :: (("ELECT 1 FROM public.\"".data ++ t.data ++ "\" LIMIT 1".data) ++ [';'])⟩ := by
    apply stringEqOfData
    show "SELECT 1 FROM public.\"".data ++ t.data ++ "\" LIMIT 1;".data = _
    simp
  rw [h]
  exact isDDL_shape_false 'S' _ ';' (by decide) (by decide) (by decide) (by decide) (by decide)

theorem isDDL_schemaColsSql (t : String) : isDDL (schemaColsSql t) = false := by
  have h : schemaColsSql t =
      ⟨'S' :: (("ELECT column_name\nFROM information_schema.columns\nWHERE table_schema = \x27public\x27 AND table_name = \x27".data
          ++ t.data ++ "\x27".data) ++ [';'])⟩ := by
    apply stringEqOfData
    show ("SELECT column_name\nFROM information_schema.columns\n" ++
        "WHERE table_schema = \x27public\x27 AND table_name = \x27").data ++ t.data ++ "\x27;".data = _
    simp
  rw [h]
  exact isDDL_shape_false 'S' _ ';' (by decide) (by decide) (by decide) (by decide) (by decide)

set_option maxRecDepth 8000 in
theorem isDDL_pkSql (t : String) : isDDL (pkSql t) = false := by
  have h : pkSql t =
      ⟨'S' :: ((("ELECT \n    kcu.column_name\nFROM information_schema.table_constraints tc\n" ++
          "JOIN information_schema.key_column_usage kcu \n" ++
          "    ON tc.constraint_name = kcu.constraint_name\n" ++
          "    AND tc.table_schema = kcu.table_schema\n" ++
          "WHERE tc.table_schema = \x27public\x27 \n    AND tc.table_name = \x27").data
          ++ t.data ++ "\x27\n    AND tc.constraint_type = \x27PRIMARY KEY\x27\nLIMIT 1".data) ++ [';'])⟩ := by
    apply stringEqOfData
    show _ ++ t.data ++ "\x27\n    AND tc.constraint_type = \x27PRIMARY KEY\x27\nLIMIT 1;".data = _
    simp
  rw [h]
  exact isDDL_shape_false 'S' _ ';' (by decide) (by decide) (by decide) (by decide) (by decide)

theorem isDDL_notifySql : isDDL notifySql = false := by decide

theorem isDDL_alterSql (t : String) (c : ColumnDefinition) :
    isDDL (alterSql t c) = true := by
  have h : alterSql t c =
      ⟨"ALTER ".data ++ ((("TABLE public.\"".data ++ t.data ++ "\" ADD COLUMN \"".data
          ++ c.name.data ++ "\" ".data ++ c.type.toStr.data)) ++ [';'])⟩ := by
    apply stringEqOfData
    show "ALTER TABLE public.\"".data ++ t.data ++ "\" ADD COLUMN \"".data ++
        c.name.data ++ "\" ".data ++ c.type.toStr.data ++ ";".data = _
    simp
  rw [h]
  exact isDDL_true_of_alter _ ';' (by decide)

theorem isDDL_create_table_sql (sch : TableSchema) :
    isDDL sch.get_create_table_sql = true := by
  have h : sch.get_create_table_sql =
      ⟨"CREATE ".data ++ ((("TABLE IF NOT EXISTS ".data ++ (quoteIdent sch.name).data
          ++ " (\n  ".data
          ++ (joinSep ",\n  " (sch.columns.map columnSql ++ primaryKeyClause sch.columns)).data
          ++ "\n)".data)) ++ [';'])⟩ := by
    apply stringEqOfData
    show "CREATE TABLE IF NOT EXISTS ".data ++ (quoteIdent sch.name).data ++ " (\n  ".data ++
        (joinSep ",\n  " (sch.columns.map columnSql ++ primaryKeyClause sch.columns)).data ++
        "\n);".data = _
    simp
  rw [h]
  exact isDDL_true_of_create _ ';' (by decide)



/- ### C7: the empty batch is a pure no-op -/

/-- C7 — For the empty record list, `upsert_data` returns success with zero
rows written and performs no database interaction whatsoever: no connection
acquisition, no DDL statement and no write statement (the action trace is
empty). -/
theorem upsert_empty_noop (env : DBEnv) (e t : String) :
    upsert_data env e t [] = (⟨true, "Nenhum dado fornecido.", 0⟩, []) := rfl

/- ### C8: column-name normalization -/

/-- C8 counterexample — the stored identifier for `"Total-Price"` is
`"total-price"`: the hyphen survives, whereas the claimed normalization
(every non-alphanumeric character to underscore) would produce
`"total_price"`. -/
theorem normalize_hyphen_cex :
    validate_column_name "Total-Price" = Except.ok "total-price"
    ∧ specNormalizeColumnName "Total-Price" = "total_price"
    ∧ ("total-price" : String) ≠ "total_price" :=
  ⟨rfl, rfl, by decide⟩

/-- Helper: the ASCII lowering maps no character to a space except the space
itself. -/
theorem pyLowerChar_eq_space {c : Char} (h : pyLowerChar c = ' ') : c = ' ' := by
  by_cases h1 : c = 'A'
  · subst h1; exact absurd h (by decide)
  by_cases h2 : c = 'B'
  · subst h2; exact absurd h (by decide)
  by_cases h3 : c = 'C'
  · subst h3; exact absurd h (by decide)
  by_cases h4 : c = 'D'
  · subst h4; exact absurd h (by decide)
  by_cases h5 : c = 'E'
  · subst h5; exact absurd h (by decide)
  by_cases h6 : c = 'F'
  · subst h6; exact absurd h (by decide)
  by_cases h7 : c = 'G'
  · subst h7; exact absurd h (by decide)
  by_cases h8 : c = 'H'
  · subst h8; exact absurd h (by decide)
  by_cases h9 : c = 'I'
  · subst h9; exact absurd h (by decide)
  by_cases h10 : c = 'J'
  · subst h10; exact absurd h (by decide)
  by_cases h11 : c = 'K'
  · subst h11; exact absurd h (by decide)
  by_cases h12 : c = 'L'
  · subst h12; exact absurd h (by decide)
  by_cases h13 : c = 'M'
  · subst h13; exact absurd h (by decide)
  by_cases h14 : c = 'N'
  · subst h14; exact absurd h (by decide)
  by_cases h15 : c = 'O'
  · subst h15; exact absurd h (by decide)
  by_cases h16 : c = 'P'
  · subst h16; exact absurd h (by decide)
  by_cases h17 : c = 'Q'
  · subst h17; exact absurd h (by decide)
  by_cases h18 : c = 'R'
  · subst h18; exact absurd h (by decide)
  by_cases h19 : c = 'S'
  · subst h19; exact absurd h (by decide)
  by_cases h20 : c = 'T'
  · subst h20; exact absurd h (by decide)
  by_cases h21 : c = 'U'
  · subst h21; exact absurd h (by decide)
  by_cases h22 : c = 'V'
  · subst h22; exact absurd h (by decide)
  by_cases h23 : c = 'W'
  · subst h23; exact absurd h (by decide)
  by_cases h24 : c = 'X'
  · subst h24; exact absurd h (by decide)
  by_cases h25 : c = 'Y'
  · subst h25; exact absurd h (by decide)
  by_cases h26 : c = 'Z'
  · subst h26; exact absurd h (by decide)
  unfold pyLowerChar at h
  rw [if_neg h1, if_neg h2, if_neg h3, if_neg h4, if_neg h5, if_neg h6, if_neg h7, if_neg h8, if_neg h9, if_neg h10, if_neg h11, if_neg h12, if_neg h13, if_neg h14, if_neg h15, if_neg h16, if_neg h17, if_neg h18, if_neg h19, if_neg h20, if_neg h21, if_neg h22, if_neg h23, if_neg h24, if_neg h25, if_neg h26] at h
  exact h

/-- Helper: lowering then replacing spaces equals the one-pass amended
description. -/
theorem map_space_lower (l : List Char) :
    (l.map pyLowerChar).map (fun c => if c = ' ' then '_' else c) =
      l.map (fun c => if c = ' ' then '_' else pyLowerChar c) := by
  rw [List.map_map]
  apply List.map_congr_left
  intro c _
  show (if pyLowerChar c = ' ' then '_' else pyLowerChar c) = _
  by_cases hc : c = ' '
  · subst hc; rfl
  · rw [if_neg (fun hl => hc (pyLowerChar_eq_space hl)), if_neg hc]

/-- C8 amended — the normalized identifier stored in a `ColumnDefinition` is
obtained by trimming surrounding whitespace and lowercasing, with each space
replaced by an underscore; no other character is replaced and no leading
letter is forced, and an empty or whitespace-only name is rejected. -/
theorem normalize_column_name_amended (s : String) :
    validate_column_name s =
      if (pyStrip s).data = [] then
        Except.error "Nome da coluna não pode estar vazio"
      else Except.ok (amendedNormalizeColumnName s) := by
  unfold validate_column_name
  by_cases h : (pyStrip s).data = []
  · rw [if_pos h, if_pos h]
  · rw [if_neg h, if_neg h]
    congr 1
    apply stringEqOfData
    exact map_space_lower (pyStripList s.data)

/- ### C4 / C5: schema inference -/

/-- C4 counterexample — a well-formed date string (`"2024-01-02"`: length 10,
contains `-`, parses as a date) is inferred as `text` by
`_infer_schema_from_data`; the claimed mapping requires `timestamp` for it.
Only `datetime` *objects* are mapped to `timestamp`. -/
theorem infer_datestring_cex :
    (_infer_schema_from_data "acme" "events"
        [[("event_date", PyValue.pyStr "2024-01-02")]]).map
      (fun s => s.columns.map (fun c => (c.name, c.type)))
      = Except.ok [("event_date", ColumnType.text)]
    ∧ specInferType (PyValue.pyStr "2024-01-02") = ColumnType.timestamp
    ∧ ColumnType.text ≠ ColumnType.timestamp :=
  ⟨rfl, by decide, by decide⟩

/-- C5 counterexample — for the batch `[{x: 2, ID: 7}]` the field `ID`
(`id` in upper case) is *not* detected: the `'id' in sample` test is
case-sensitive, so the first field `x` is flagged primary and placed first,
while the `ID` column (normalized to `id`) is not primary — contradicting the
claim that a field named `id` in any letter case is flagged primary and
placed first. -/
theorem infer_uppercase_id_cex :
    (_infer_schema_from_data "acme" "t"
        [[("x", PyValue.pyInt 2), ("ID", PyValue.pyInt 7)]]).map
      (fun s => s.columns.map (fun c => (c.name, c.primary_key)))
      = Except.ok [("x", true), ("id", false)]
    ∧ ¬((_infer_schema_from_data "acme" "t"
        [[("x", PyValue.pyInt 2), ("ID", PyValue.pyInt 7)]]).map
      (fun s => s.columns.map (fun c => (c.name, c.primary_key)))
      = Except.ok [("id", true), ("x", false)]) := by
  constructor
  · rfl
  · intro h
    rw [show (_infer_schema_from_data "acme" "t"
        [[("x", PyValue.pyInt 2), ("ID", PyValue.pyInt 7)]]).map
      (fun s => s.columns.map (fun c => (c.name, c.primary_key)))
      = Except.ok [("x", true), ("id", false)] from rfl] at h
    simp at h

/-- Unfolding a successful `ColumnDefinition.make`. -/
theorem make_ok {name : String} {type : ColumnType} {nullable pk uniq : Bool}
    {dv : Option DefaultValue} {ml : Option Nat} {cd : ColumnDefinition}
    (h : ColumnDefinition.make name type nullable pk uniq dv ml = .ok cd) :
    validate_column_name name = .ok cd.name ∧ cd.type = type ∧
    cd.nullable = nullable ∧ cd.primary_key = pk := by
  unfold ColumnDefinition.make at h
  cases hv : validate_column_name name with
  | error e2 => rw [hv] at h; cases h
  | ok n =>
      rw [hv] at h
      cases h
      exact ⟨rfl, rfl, rfl, rfl⟩

theorem dictInsert_mem {k : String} {v : ColumnDefinition}
    {l : List (String × ColumnDefinition)} {p : String × ColumnDefinition}
    (h : p ∈ dictInsert k v l) : p = (k, v) ∨ p ∈ l := by
  induction l with
  | nil => simpa [dictInsert] using h
  | cons q rest ih =>
      rcases q with ⟨k0, v0⟩
      unfold dictInsert at h
      by_cases hk : k0 = k
      · rw [if_pos hk] at h
        rcases List.mem_cons.mp h with h1 | h2
        · exact Or.inl h1
        · exact Or.inr (List.mem_cons_of_mem _ h2)
      · rw [if_neg hk] at h
        rcases List.mem_cons.mp h with h1 | h2
        · exact Or.inr (h1 ▸ List.mem_cons_self _ _)
        · rcases ih h2 with ha | hb
          · exact Or.inl ha
          · exact Or.inr (List.mem_cons_of_mem _ hb)

theorem dictInsert_keys {k k' : String} {v : ColumnDefinition}
    {l : List (String × ColumnDefinition)}
    (h : k' = k ∨ k' ∈ l.map Prod.fst) :
    k' ∈ (dictInsert k v l).map Prod.fst := by
  induction l with
  | nil =>
      rcases h with h | h
      · simp [dictInsert, h]
      · cases h
  | cons q rest ih =>
      rcases q with ⟨k0, v0⟩
      unfold dictInsert
      by_cases hk : k0 = k
      · rw [if_pos hk]
        rcases h with h | h
        · simp [h]
        · subst hk
          simpa using h
      · rw [if_neg hk]
        rcases h with h | h
        · exact List.mem_cons_of_mem _ (ih (Or.inl h))
        · rcases List.mem_cons.mp h with h1 | h2
          · simp [h1]
          · exact List.mem_cons_of_mem _ (ih (Or.inr h2))

theorem dictPop_of_mem_keys {k : String} :
    ∀ {l : List (String × ColumnDefinition)}, k ∈ l.map Prod.fst →
      ∃ v rest, dictPop k l = some (v, rest) := by
  intro l
  induction l with
  | nil => intro h; cases h
  | cons q rest ih =>
      rcases q with ⟨k0, v0⟩
      intro h
      unfold dictPop
      by_cases hk : k0 = k
      · rw [if_pos hk]; exact ⟨v0, rest, rfl⟩
      · rw [if_neg hk]
        have hk' : k ∈ rest.map Prod.fst := by
          rcases List.mem_cons.mp h with h1 | h2
          · exact absurd h1.symm hk
          · exact h2
        obtain ⟨v, rest2, hp⟩ := ih hk'
        rw [hp]
        exact ⟨v, (k0, v0) :: rest2, rfl⟩

theorem dictPop_mem {k : String} :
    ∀ {l : List (String × ColumnDefinition)} {v rest},
      dictPop k l = some (v, rest) → (k, v) ∈ l := by
  intro l
  induction l with
  | nil => intro v rest h; cases h
  | cons q tl ih =>
      rcases q with ⟨k0, v0⟩
      intro v rest h
      unfold dictPop at h
      by_cases hk : k0 = k
      · rw [if_pos hk] at h
        cases h
        subst hk
        exact List.mem_cons_self _ _
      · rw [if_neg hk] at h
        cases hp : dictPop k tl with
        | none => rw [hp] at h; cases h
        | some pr =>
            rcases pr with ⟨v1, rest1⟩
            rw [hp] at h
            cases h
            exact List.mem_cons_of_mem _ (ih hp)

theorem dictPop_rest_sub {k : String} :
    ∀ {l : List (String × ColumnDefinition)} {v rest},
      dictPop k l = some (v, rest) → ∀ p ∈ rest, p ∈ l := by
  intro l
  induction l with
  | nil => intro v rest h; cases h
  | cons q tl ih =>
      rcases q with ⟨k0, v0⟩
      intro v rest h p hp
      unfold dictPop at h
      by_cases hk : k0 = k
      · rw [if_pos hk] at h
        cases h
        exact List.mem_cons_of_mem _ hp
      · rw [if_neg hk] at h
        cases hq : dictPop k tl with
        | none => rw [hq] at h; cases h
        | some pr =>
            rcases pr with ⟨v1, rest1⟩
            rw [hq] at h
            cases h
            rcases List.mem_cons.mp hp with h1 | h2
            · exact h1 ▸ List.mem_cons_self _ _
            · exact List.mem_cons_of_mem _ (ih hq _ h2)

theorem inferLoop_nil (hasId : Bool) (acc : List (String × ColumnDefinition)) :
    inferLoop hasId [] acc = .ok acc := rfl

theorem inferLoop_cons (hasId : Bool) (k : String) (v : PyValue) (rest : Record)
    (acc : List (String × ColumnDefinition)) :
    inferLoop hasId ((k, v) :: rest) acc =
      match ColumnDefinition.make k (pgTypeOf v) true
          (if hasId then decide (pyLower k = "id") else decide (acc.length = 0))
          false none none with
      | .error e => .error e
      | .ok cd => inferLoop hasId rest (dictInsert k cd acc) := rfl

/-- After a successful inference loop the accumulated keys and all sample
keys are present. -/
theorem inferLoop_keys {hasId : Bool} :
    ∀ {sample : Record} {acc res : List (String × ColumnDefinition)},
      inferLoop hasId sample acc = .ok res →
      ∀ k', (k' ∈ acc.map Prod.fst ∨ k' ∈ sample.map Prod.fst) →
        k' ∈ res.map Prod.fst := by
  intro sample
  induction sample with
  | nil =>
      intro acc res h k' hk
      rw [inferLoop_nil] at h
      cases h
      rcases hk with hk | hk
      · exact hk
      · cases hk
  | cons kv rest ih =>
      rcases kv with ⟨k, v⟩
      intro acc res h k' hk
      rw [inferLoop_cons] at h
      cases hmk : ColumnDefinition.make k (pgTypeOf v) true
          (if hasId then decide (pyLower k = "id") else decide (acc.length = 0))
          false none none with
      | error e2 => rw [hmk] at h; cases h
      | ok cd =>
          rw [hmk] at h
          apply ih h
          rcases hk with hk | hk
          · exact Or.inl (dictInsert_keys (Or.inr hk))
          · rcases List.mem_cons.mp hk with h1 | h2
            · exact Or.inl (dictInsert_keys (Or.inl h1))
            · exact Or.inr h2

/-- In id-detection mode every stored entry under the key `"id"` is the
normalized `id` column with the primary flag set. -/
theorem inferLoop_id_flag :
    ∀ {sample : Record} {acc res : List (String × ColumnDefinition)},
      inferLoop true sample acc = .ok res →
      (∀ p ∈ acc, p.1 = "id" → p.2.name = "id" ∧ p.2.primary_key = true) →
      ∀ p ∈ res, p.1 = "id" → p.2.name = "id" ∧ p.2.primary_key = true := by
  intro sample
  induction sample with
  | nil =>
      intro acc res h hacc
      rw [inferLoop_nil] at h
      cases h
      exact hacc
  | cons kv rest ih =>
      rcases kv with ⟨k, v⟩
      intro acc res h hacc
      rw [inferLoop_cons] at h
      cases hmk : ColumnDefinition.make k (pgTypeOf v) true
          (if (true : Bool) then decide (pyLower k = "id") else decide (acc.length = 0))
          false none none with
      | error e2 => rw [hmk] at h; cases h
      | ok cd =>
          rw [hmk] at h
          apply ih h
          intro p hp hpid
          rcases dictInsert_mem hp with h1 | h2
          · subst h1
            simp only at hpid
            subst hpid
            obtain ⟨hvn, _, _, hpk⟩ := make_ok hmk
            constructor
            · have : validate_column_name "id" = Except.ok "id" := rfl
              rw [this] at hvn
              exact (Except.ok.inj hvn).symm
            · rw [hpk]
              rfl
          · exact hacc p h2 hpid

/-- Every column produced by the loop originates in a sample field, with the
name produced by the column-name validator and the type given by the
`isinstance` mapping. -/
theorem inferLoop_from {hasId : Bool} {r : Record} :
    ∀ {sample : Record} {acc res : List (String × ColumnDefinition)},
      inferLoop hasId sample acc = .ok res →
      (∀ p ∈ sample, p ∈ r) →
      (∀ p ∈ acc, ∃ kv ∈ r,
        validate_column_name kv.1 = .ok p.2.name ∧ p.2.type = pgTypeOf kv.2) →
      ∀ p ∈ res, ∃ kv ∈ r,
        validate_column_name kv.1 = .ok p.2.name ∧ p.2.type = pgTypeOf kv.2 := by
  intro sample
  induction sample with
  | nil =>
      intro acc res h _ hacc
      rw [inferLoop_nil] at h
      cases h
      exact hacc
  | cons kv rest ih =>
      rcases kv with ⟨k, v⟩
      intro acc res h hsub hacc
      rw [inferLoop_cons] at h
      cases hmk : ColumnDefinition.make k (pgTypeOf v) true
          (if hasId then decide (pyLower k = "id") else decide (acc.length = 0))
          false none none with
      | error e2 => rw [hmk] at h; cases h
      | ok cd =>
          rw [hmk] at h
          apply ih h
          · intro p hp
            exact hsub p (List.mem_cons_of_mem _ hp)
          · intro p hp
            rcases dictInsert_mem hp with h1 | h2
            · subst h1
              obtain ⟨hvn, hty, _, _⟩ := make_ok hmk
              exact ⟨(k, v), hsub _ (List.mem_cons_self _ _), hvn, hty⟩
            · exact hacc p h2

/-- With distinct keys, the first inserted entry stays at the head of the
dictionary. -/
theorem inferLoop_head {hasId : Bool} {k0 : String} {cd0 : ColumnDefinition} :
    ∀ {sample : Record} {acc res : List (String × ColumnDefinition)},
      inferLoop hasId sample ((k0, cd0) :: acc) = .ok res →
      k0 ∉ sample.map Prod.fst →
      ∃ res2, res = (k0, cd0) :: res2 := by
  intro sample
  induction sample with
  | nil =>
      intro acc res h _
      rw [inferLoop_nil] at h
      cases h
      exact ⟨acc, rfl⟩
  | cons kv rest ih =>
      rcases kv with ⟨k, v⟩
      intro acc res h hk0
      rw [inferLoop_cons] at h
      cases hmk : ColumnDefinition.make k (pgTypeOf v) true
          (if hasId then decide (pyLower k = "id")
           else decide (((k0, cd0) :: acc).length = 0))
          false none none with
      | error e2 => rw [hmk] at h; cases h
      | ok cd =>
          rw [hmk] at h
          have hne : ¬(k0 = k) := by
            intro he
            exact hk0 (by simp [he])
          have h2 : inferLoop hasId rest (dictInsert k cd ((k0, cd0) :: acc)) =
              Except.ok res := h
          rw [show dictInsert k cd ((k0, cd0) :: acc) =
              (k0, cd0) :: dictInsert k cd acc by
            simp only [dictInsert]; rw [if_neg hne]] at h2
          exact ih h2 (fun hm => hk0 (List.mem_cons_of_mem _ hm))

/-- A successful `TableSchema.make` whose input already contains a
primary-key column keeps the column list unchanged. -/
theorem tableSchemaMake_of_pk {nm : String} {cols : List ColumnDefinition}
    {cid : String} {sch : TableSchema}
    (h : TableSchema.make nm cols cid = .ok sch)
    (hpk : ∃ c ∈ cols, c.primary_key = true) :
    sch.columns = cols := by
  unfold TableSchema.make at h
  cases hv : validate_table_name nm with
  | error e2 => rw [hv] at h; cases h
  | ok n =>
      rw [hv] at h
      unfold validate_columns at h
      obtain ⟨c, hc, hcpk⟩ := hpk
      have hne : ¬(cols = []) := by
        intro he
        rw [he] at hc
        cases hc
      rw [if_neg hne] at h
      have hf : ¬(cols.filter (fun c => c.primary_key) = []) := by
        intro hfe
        have hmem : c ∈ cols.filter (fun c => c.primary_key) :=
          List.mem_filter.mpr ⟨hc, hcpk⟩
        rw [hfe] at hmem
        cases hmem
      rw [if_neg hf] at h
      cases h
      rfl

/-- A successful `TableSchema.make` whose input has no primary-key column
prepends the synthetic generated-identifier column. -/
theorem tableSchemaMake_no_pk {nm : String} {cols : List ColumnDefinition}
    {cid : String} {sch : TableSchema}
    (h : TableSchema.make nm cols cid = .ok sch)
    (hne : cols ≠ [])
    (hnopk : ∀ c ∈ cols, c.primary_key = false) :
    sch.columns = syntheticIdColumn :: cols := by
  unfold TableSchema.make at h
  cases hv : validate_table_name nm with
  | error e2 => rw [hv] at h; cases h
  | ok n =>
      rw [hv] at h
      unfold validate_columns at h
      rw [if_neg hne] at h
      have hf : cols.filter (fun c => c.primary_key) = [] := by
        apply List.filter_eq_nil_iff.mpr
        intro c hc
        rw [hnopk c hc]
        exact Bool.false_ne_true
      rw [if_pos hf] at h
      cases h
      rfl

theorem tableSchemaMake_nil {nm cid : String} {sch : TableSchema} :
    TableSchema.make nm [] cid ≠ .ok sch := by
  intro h
  unfold TableSchema.make at h
  cases hv : validate_table_name nm with
  | error e2 => rw [hv] at h; cases h
  | ok n =>
      rw [hv] at h
      have h2 : (Except.error "Tabela deve ter pelo menos uma coluna" :
          Except String TableSchema) = .ok sch := h
      cases h2

theorem infer_cons (e t : String) (sample : Record) (rest : List Record) :
    _infer_schema_from_data e t (sample :: rest) =
      match inferLoop (dictHasKey "id" sample) sample [] with
      | .error e2 => .error e2
      | .ok cols =>
          TableSchema.make t
            ((if dictHasKey "id" sample then
                match dictPop "id" cols with
                | some (idc, r2) => ("id", idc) :: r2
                | none => cols
              else cols).map Prod.snd) e := rfl

/-- The structural description of a successful inference over a sample with
distinct keys: the schema's columns are the values of an entry list in which
every entry originates in the sample; when the sample has an exact `id` key
the normalized primary `id` column heads the list, otherwise the first sample
field does, flagged primary. -/
theorem infer_shape (e t : String) (r : Record) (rest : List Record)
    (hnd : (r.map Prod.fst).Nodup) (sch : TableSchema)
    (hsch : _infer_schema_from_data e t (r :: rest) = .ok sch) :
    ∃ entries : List (String × ColumnDefinition),
      sch.columns = entries.map Prod.snd
      ∧ (∀ p ∈ entries, ∃ kv ∈ r,
          validate_column_name kv.1 = .ok p.2.name ∧ p.2.type = pgTypeOf kv.2)
      ∧ (dictHasKey "id" r = true →
          ∃ cd rest2, entries = ("id", cd) :: rest2 ∧ cd.name = "id" ∧
            cd.primary_key = true)
      ∧ (dictHasKey "id" r = false →
          ∀ k v r2, r = (k, v) :: r2 →
            ∃ cd rest2, entries = (k, cd) :: rest2 ∧
              validate_column_name k = .ok cd.name ∧ cd.primary_key = true ∧
              cd.type = pgTypeOf v) := by
  rw [infer_cons] at hsch
  by_cases hid : dictHasKey "id" r = true
  · rw [hid] at hsch
    cases hl : inferLoop true r [] with
    | error e2 => rw [hl] at hsch; cases hsch
    | ok cols =>
        rw [hl] at hsch
        have hsch2 : TableSchema.make t
            ((match dictPop "id" cols with
              | some (idc, r2) => ("id", idc) :: r2
              | none => cols).map Prod.snd) e = Except.ok sch := hsch
        have hidr : "id" ∈ r.map Prod.fst := by
          unfold dictHasKey at hid
          obtain ⟨kv, hkv, hkv2⟩ := List.any_eq_true.mp hid
          have : kv.1 = "id" := of_decide_eq_true hkv2
          exact this ▸ List.mem_map_of_mem Prod.fst hkv
        have hkeys : "id" ∈ cols.map Prod.fst :=
          inferLoop_keys hl "id" (Or.inr hidr)
        obtain ⟨cdid, rest2, hpop⟩ := dictPop_of_mem_keys hkeys
        rw [hpop] at hsch2
        have hidp : cdid.name = "id" ∧ cdid.primary_key = true :=
          inferLoop_id_flag hl (by intro p hp; cases hp) ("id", cdid)
            (dictPop_mem hpop) rfl
        refine ⟨("id", cdid) :: rest2, ?_, ?_, ?_, ?_⟩
        · exact tableSchemaMake_of_pk hsch2 ⟨cdid, by simp, hidp.2⟩
        · intro p hp
          have hpcols : p ∈ cols := by
            rcases List.mem_cons.mp hp with h1 | h2
            · exact h1 ▸ dictPop_mem hpop
            · exact dictPop_rest_sub hpop p h2
          exact inferLoop_from hl (fun q hq => hq) (by intro q hq; cases hq) p hpcols
        · intro _
          exact ⟨cdid, rest2, rfl, hidp.1, hidp.2⟩
        · intro hfalse
          rw [hid] at hfalse
          cases hfalse
  · have hid' : dictHasKey "id" r = false := Bool.not_eq_true _ ▸ eq_false_of_ne_true hid
    rw [hid'] at hsch
    cases r with
    | nil =>
        rw [inferLoop_nil] at hsch
        have hsch2 : TableSchema.make t ([] : List ColumnDefinition) e =
            Except.ok sch := hsch
        exact absurd hsch2 tableSchemaMake_nil
    | cons kv r2 =>
        rcases kv with ⟨k, v⟩
        cases hl : inferLoop false ((k, v) :: r2) [] with
        | error e2 => rw [hl] at hsch; cases hsch
        | ok cols =>
            rw [hl] at hsch
            have hsch2 : TableSchema.make t (cols.map Prod.snd) e =
                Except.ok sch := hsch
            rw [inferLoop_cons] at hl
            cases hmk : ColumnDefinition.make k (pgTypeOf v) true
                (if (false : Bool) then decide (pyLower k = "id")
                 else decide (([] : List (String × ColumnDefinition)).length = 0))
                false none none with
            | error e2 => rw [hmk] at hl; cases hl
            | ok cd0 =>
                rw [hmk] at hl
                have hl2 : inferLoop false r2 [(k, cd0)] = Except.ok cols := hl
                have hk0 : k ∉ r2.map Prod.fst := by
                  have := hnd
                  simp only [List.map_cons, List.nodup_cons] at this
                  exact this.1
                obtain ⟨cols2, hcols⟩ := inferLoop_head hl2 hk0
                obtain ⟨hvn, hty, _, hpk⟩ := make_ok hmk
                have hpk0 : cd0.primary_key = true := by
                  rw [hpk]
                  rfl
                refine ⟨cols, ?_, ?_, ?_, ?_⟩
                · exact tableSchemaMake_of_pk hsch2
                    ⟨cd0, by rw [hcols]; simp, hpk0⟩
                · intro p hp
                  refine inferLoop_from hl2
                    (fun q hq => List.mem_cons_of_mem _ hq) ?_ p hp
                  intro q hq
                  rcases List.mem_cons.mp hq with h1 | h2
                  · subst h1
                    exact ⟨(k, v), List.mem_cons_self _ _, hvn, hty⟩
                  · cases h2
                · intro htrue
                  rw [hid'] at htrue
                  cases htrue
                · intro _ k' v' r2' heq
                  have hk : k' = k := by
                    have := congrArg (fun l => l.headD ("", PyValue.pyNone)) heq
                    simp at this
                    exact (this.1).symm
                  have hv : v' = v := by
                    have := congrArg (fun l => l.headD ("", PyValue.pyNone)) heq
                    simp at this
                    exact (this.2).symm
                  subst hk
                  subst hv
                  exact ⟨cd0, cols2, hcols, hvn, hpk0, hty⟩

/-- C4 amended — for every non-empty record batch with distinct field names,
schema inference derives each column solely from the **first** record (later
records are ignored entirely), and each column's type comes from the first
record's value for its field under the actual mapping `pgTypeOf`: boolean →
boolean, integral → bigint, floating → real, datetime object → timestamp, and
every other value — all strings included, date-like or not — → text. -/
theorem infer_first_record_mapping (e t : String) (r : Record)
    (rest rest2 : List Record) (hnd : (r.map Prod.fst).Nodup) :
    _infer_schema_from_data e t (r :: rest) = _infer_schema_from_data e t (r :: rest2)
    ∧ ∀ sch, _infer_schema_from_data e t (r :: rest) = .ok sch →
        ∀ c ∈ sch.columns, ∃ kv ∈ r,
          validate_column_name kv.1 = .ok c.name ∧ c.type = pgTypeOf kv.2 := by
  constructor
  · rfl
  · intro sch hsch c hc
    obtain ⟨entries, hcols, horigin, _, _⟩ := infer_shape e t r rest hnd sch hsch
    rw [hcols] at hc
    obtain ⟨p, hp, hpc⟩ := List.mem_map.mp hc
    obtain ⟨kv, hkv, h1, h2⟩ := horigin p hp
    exact ⟨kv, hkv, hpc ▸ h1, hpc ▸ h2⟩

theorem infer_first_record_mapping_witness :
    _infer_schema_from_data "acme" "orders" [recW]
      = _infer_schema_from_data "acme" "orders" [recW, [("x", PyValue.pyBool true)]]
    ∧ ∃ kv ∈ recW, validate_column_name kv.1 = .ok "total"
        ∧ ColumnType.real = pgTypeOf kv.2 :=
  ⟨(infer_first_record_mapping "acme" "orders" recW []
      [[("x", PyValue.pyBool true)]] (by decide)).1,
   (infer_first_record_mapping "acme" "orders" recW []
      [[("x", PyValue.pyBool true)]] (by decide)).2 schW rfl
     { name := "total", type := .real, nullable := true, primary_key := false,
       unique := false, default_value := none, max_length := none } (by decide)⟩

/-- C5 amended — the primary-key heuristic is driven by an exact lowercase
`id` key: if the first record contains a field named exactly `id`, the
normalized `id` column is flagged primary and placed first; otherwise (even
when an `ID`/`Id` field exists) the first field of the record is flagged
primary and stays first. -/
theorem infer_pk_heuristic (e t : String) (r : Record) (rest : List Record)
    (hnd : (r.map Prod.fst).Nodup) :
    (dictHasKey "id" r = true →
      ∀ sch, _infer_schema_from_data e t (r :: rest) = .ok sch →
        ∃ cd cs, sch.columns = cd :: cs ∧ cd.name = "id" ∧ cd.primary_key = true)
    ∧ (dictHasKey "id" r = false →
      ∀ k v r2, r = (k, v) :: r2 →
        ∀ sch, _infer_schema_from_data e t (r :: rest) = .ok sch →
          ∃ cd cs, sch.columns = cd :: cs ∧
            validate_column_name k = .ok cd.name ∧ cd.primary_key = true ∧
            cd.type = pgTypeOf v) := by
  constructor
  · intro hid sch hsch
    obtain ⟨entries, hcols, _, hidc, _⟩ := infer_shape e t r rest hnd sch hsch
    obtain ⟨cd, rest2, he, hn, hp⟩ := hidc hid
    exact ⟨cd, rest2.map Prod.snd, by rw [hcols, he]; rfl, hn, hp⟩
  · intro hid k v r2 hr sch hsch
    obtain ⟨entries, hcols, _, _, hfirst⟩ := infer_shape e t r rest hnd sch hsch
    obtain ⟨cd, rest2, he, hvn, hp, hty⟩ := hfirst hid k v r2 hr
    exact ⟨cd, rest2.map Prod.snd, by rw [hcols, he]; rfl, hvn, hp, hty⟩

theorem infer_pk_heuristic_witness :
    ∃ cd cs, schW.columns = cd :: cs ∧ cd.name = "id" ∧ cd.primary_key = true :=
  (infer_pk_heuristic "acme" "orders" recW [] (by decide)).1 (by decide) schW rfl

/- ### C6: synthetic generated-identifier primary key -/

theorem joinSep_cons (sep a b : String) (l : List String) :
    joinSep sep (a :: b :: l) = a ++ sep ++ joinSep sep (b :: l) := rfl

theorem joinSep_append_last (sep x : String) :
    ∀ l : List String, l ≠ [] → ∃ a, joinSep sep (l ++ [x]) = a ++ (sep ++ x) := by
  intro l
  induction l with
  | nil => intro h; exact absurd rfl h
  | cons y tl ih =>
      intro _
      cases tl with
      | nil =>
          refine ⟨y, ?_⟩
          show joinSep sep [y, x] = y ++ (sep ++ x)
          rw [show joinSep sep [y, x] = y ++ sep ++ joinSep sep [x] from rfl,
              show joinSep sep [x] = x from rfl]
          apply stringEqOfData
          simp [data_append]
      | cons z tl2 =>
          obtain ⟨a, ha⟩ := ih (by intro h2; cases h2)
          have ha2 : joinSep sep (z :: (tl2 ++ [x])) = a ++ (sep ++ x) := ha
          refine ⟨y ++ sep ++ a, ?_⟩
          show joinSep sep (y :: ((z :: tl2) ++ [x])) = y ++ sep ++ a ++ (sep ++ x)
          rw [show (z :: tl2) ++ [x] = z :: (tl2 ++ [x]) from rfl, joinSep_cons, ha2]
          apply stringEqOfData
          simp [data_append]

/-- C6 — for every `TableSchema` built from a non-empty column list in which
no column is flagged primary-key, the synthetic generated-identifier column
(`id uuid NOT NULL DEFAULT gen_random_uuid()`) is prepended as the first
column and flagged primary, and the generated create-table statement contains
both that column and the `PRIMARY KEY ("id")` constraint. -/
theorem create_sql_synthesizes_pk (nm cid : String)
    (cols : List ColumnDefinition) (sch : TableSchema)
    (hne : cols ≠ [])
    (hnopk : ∀ c ∈ cols, c.primary_key = false)
    (hmk : TableSchema.make nm cols cid = .ok sch) :
    sch.columns = syntheticIdColumn :: cols
    ∧ syntheticIdColumn.primary_key = true
    ∧ (∃ a b, sch.get_create_table_sql =
        a ++ "\"id\" uuid NOT NULL DEFAULT gen_random_uuid()" ++ b)
    ∧ (∃ a b, sch.get_create_table_sql = a ++ "PRIMARY KEY (\"id\")" ++ b) := by
  have hcols : sch.columns = syntheticIdColumn :: cols :=
    tableSchemaMake_no_pk hmk hne hnopk
  have hfilter : (syntheticIdColumn :: cols).filter (fun c => c.primary_key) =
      [syntheticIdColumn] := by
    rw [List.filter_cons_of_pos (by rfl)]
    rw [show cols.filter (fun c => c.primary_key) = [] from
      List.filter_eq_nil_iff.mpr
        (fun c hc => by rw [hnopk c hc]; exact Bool.false_ne_true)]
  have hpkclause : primaryKeyClause (syntheticIdColumn :: cols) =
      ["PRIMARY KEY (\"id\")"] := by
    unfold primaryKeyClause
    rw [hfilter]
    rfl
  have hsql : sch.get_create_table_sql =
      "CREATE TABLE IF NOT EXISTS " ++ quoteIdent sch.name ++ " (\n  " ++
        joinSep ",\n  "
          ((syntheticIdColumn :: cols).map columnSql ++ ["PRIMARY KEY (\"id\")"]) ++
        "\n);" := by
    unfold TableSchema.get_create_table_sql
    rw [hcols, hpkclause]
  refine ⟨hcols, rfl, ?_, ?_⟩
  · -- the synthetic id column fragment is the first element of the join
    rcases hl : cols.map columnSql ++ ["PRIMARY KEY (\"id\")"] with _ | ⟨y, tl⟩
    · exact absurd (List.append_eq_nil.mp hl).2 (by intro h2; cases h2)
    · refine ⟨"CREATE TABLE IF NOT EXISTS " ++ quoteIdent sch.name ++ " (\n  ",
        ",\n  " ++ joinSep ",\n  " (y :: tl) ++ "\n);", ?_⟩
      rw [hsql, show (syntheticIdColumn :: cols).map columnSql ++
          ["PRIMARY KEY (\"id\")"] =
          columnSql syntheticIdColumn :: (cols.map columnSql ++
            ["PRIMARY KEY (\"id\")"]) from rfl, hl, joinSep_cons]
      rw [show columnSql syntheticIdColumn =
        "\"id\" uuid NOT NULL DEFAULT gen_random_uuid()" from rfl]
      apply stringEqOfData
      simp [data_append]
  · -- the primary-key clause is the last element of the join
    obtain ⟨a, ha⟩ := joinSep_append_last ",\n  " "PRIMARY KEY (\"id\")"
      ((syntheticIdColumn :: cols).map columnSql) (by intro h2; cases h2)
    refine ⟨"CREATE TABLE IF NOT EXISTS " ++ quoteIdent sch.name ++ " (\n  " ++
        a ++ ",\n  ", "\n);", ?_⟩
    rw [hsql, ha]
    apply stringEqOfData
    simp [data_append]

theorem create_sql_synthesizes_pk_witness :
    schX.columns = syntheticIdColumn :: [colX]
    ∧ syntheticIdColumn.primary_key = true
    ∧ (∃ a b, schX.get_create_table_sql =
        a ++ "\"id\" uuid NOT NULL DEFAULT gen_random_uuid()" ++ b)
    ∧ (∃ a b, schX.get_create_table_sql = a ++ "PRIMARY KEY (\"id\")" ++ b) :=
  create_sql_synthesizes_pk "events" "acme" [colX] schX
    (by decide) (by decide) rfl

/- ### Statement-level computation lemmas -/

theorem exec_fetch_ok {env : DBEnv} {n : Nat} {q : String} {rows : List Row}
    (hpool : env.poolOk = true) (hddl : isDDL q = false)
    (hrun : env.run n q = .ok rows) :
    execute_query env n q = (.ok (some rows), [.sqlFetch q], n + 1) := by
  unfold execute_query
  rw [hpool, hddl, hrun]
  rfl

theorem exec_fetch_err {env : DBEnv} {n : Nat} {q msg : String}
    (hpool : env.poolOk = true) (hddl : isDDL q = false)
    (hrun : env.run n q = .error msg) :
    execute_query env n q = (.error msg, [.sqlFetch q], n + 1) := by
  unfold execute_query
  rw [hpool, hddl, hrun]
  rfl

theorem exec_ddl_ok {env : DBEnv} {n : Nat} {q : String} {rows : List Row}
    (hpool : env.poolOk = true) (hddl : isDDL q = true)
    (hrun : env.run n q = .ok rows) :
    execute_query env n q = (.ok (some []), [.sqlExec q, .notifyReload], n + 1) := by
  unfold execute_query
  rw [hpool, hddl, hrun]
  rfl

theorem exec_ddl_err {env : DBEnv} {n : Nat} {q msg : String}
    (hpool : env.poolOk = true) (hddl : isDDL q = true)
    (hrun : env.run n q = .error msg) :
    execute_query env n q = (.error msg, [.sqlExec q], n + 1) := by
  unfold execute_query
  rw [hpool, hddl, hrun]
  rfl

theorem probe_ok {env : DBEnv} {n : Nat} {t : String} {rows : List Row}
    (hpool : env.poolOk = true) (hrun : env.run n (probeSql t) = .ok rows) :
    table_exists_postgres env n t = (true, [.sqlFetch (probeSql t)], n + 1) := by
  unfold table_exists_postgres
  rw [exec_fetch_ok hpool (isDDL_probeSql t) hrun]

theorem probe_err {env : DBEnv} {n : Nat} {t msg : String}
    (hpool : env.poolOk = true) (hrun : env.run n (probeSql t) = .error msg) :
    table_exists_postgres env n t = (false, [.sqlFetch (probeSql t)], n + 1) := by
  unfold table_exists_postgres
  rw [exec_fetch_err hpool (isDDL_probeSql t) hrun]
  exact ite_self _

/- ### C3: additive reconciliation -/

theorem alterLoop_spec (env : DBEnv) (t : String) (existing : List String)
    (hpool : env.poolOk = true) :
    ∀ (cols : List ColumnDefinition) (n : Nat),
      (∀ m c, c ∈ cols → existing.contains c.name = false →
        env.run m (alterSql t c) = .ok []) →
      (alterLoop env t existing n cols).1 = .ok ()
      ∧ (alterLoop env t existing n cols).2.1 =
          (cols.filter (fun c => !(existing.contains c.name))).flatMap
            (fun c => [DBAction.sqlExec (alterSql t c), DBAction.notifyReload]) := by
  intro cols
  induction cols with
  | nil => intro n _; exact ⟨rfl, rfl⟩
  | cons c rest ih =>
      intro n halters
      by_cases hc : existing.contains c.name
      · have hrec := ih n (fun m c2 hc2 hm2 =>
          halters m c2 (List.mem_cons_of_mem _ hc2) hm2)
        constructor
        · show (alterLoop env t existing n (c :: rest)).1 = .ok ()
          unfold alterLoop
          rw [if_pos hc]
          exact hrec.1
        · show (alterLoop env t existing n (c :: rest)).2.1 = _
          unfold alterLoop
          rw [if_pos hc, List.filter_cons_of_neg (by rw [hc]; decide)]
          exact hrec.2
      · have hcf : existing.contains c.name = false :=
          Bool.not_eq_true _ ▸ eq_false_of_ne_true hc
        have hrunc := halters n c (List.mem_cons_self _ _) hcf
        have hexec := exec_ddl_ok hpool (isDDL_alterSql t c) hrunc
        have hrec := ih (n + 1) (fun m c2 hc2 hm2 =>
          halters m c2 (List.mem_cons_of_mem _ hc2) hm2)
        constructor
        · show (alterLoop env t existing n (c :: rest)).1 = .ok ()
          unfold alterLoop
          rw [if_neg hc, hexec]
          exact hrec.1
        · show (alterLoop env t existing n (c :: rest)).2.1 = _
          unfold alterLoop
          rw [if_neg hc, hexec, List.filter_cons_of_pos (by rw [hcf]; decide)]
          show [DBAction.sqlExec (alterSql t c), DBAction.notifyReload] ++
              (alterLoop env t existing (n + 1) rest).2.1 = _
          rw [hrec.2]
          rfl

/-- C3 — for a live table whose column set misses the set `C` of inferred
columns, reconciliation executes exactly one `ADD COLUMN` statement per
column of `C`, in order, and no other schema-changing statement (never a drop
or a type change); when the inferred column names are all present in the live
table, it executes zero schema-changing statements. -/
theorem reconcile_adds_exactly_missing
    (env : DBEnv) (t : String) (sch : TableSchema) (n : Nat)
    (colRows : List Row) (existing : List String)
    (hpool : env.poolOk = true)
    (hcols : ∀ m, env.run m (schemaColsSql t) = .ok colRows)
    (hext : extractColumnNames colRows = .ok existing)
    (halters : ∀ m c, c ∈ sch.columns → existing.contains c.name = false →
        env.run m (alterSql t c) = .ok []) :
    (_compare_and_alter_table env n t sch).1 = .ok ()
    ∧ (_compare_and_alter_table env n t sch).2.1.filter isSchemaChanging =
        (sch.columns.filter (fun c => !(existing.contains c.name))).map
          (fun c => DBAction.sqlExec (alterSql t c))
    ∧ ((∀ c ∈ sch.columns, existing.contains c.name = true) →
        (_compare_and_alter_table env n t sch).2.1.filter isSchemaChanging = []) := by
  have hdb0 : _get_table_schema_from_db env n t =
      (extractColumnNames colRows, [.sqlFetch (schemaColsSql t)], n + 1) := by
    unfold _get_table_schema_from_db
    rw [exec_fetch_ok hpool (isDDL_schemaColsSql t) (hcols n)]
  have hdb : _get_table_schema_from_db env n t =
      (.ok existing, [.sqlFetch (schemaColsSql t)], n + 1) := by
    rw [hdb0, hext]
  have hloop := alterLoop_spec env t existing hpool sch.columns (n + 1)
    (fun m c hc hm => halters m c hc hm)
  have hcmp1 : (_compare_and_alter_table env n t sch).1 =
      (alterLoop env t existing (n + 1) sch.columns).1 := by
    unfold _compare_and_alter_table
    rw [hdb]
  have hcmp2 : (_compare_and_alter_table env n t sch).2.1 =
      DBAction.sqlFetch (schemaColsSql t) ::
        (alterLoop env t existing (n + 1) sch.columns).2.1 := by
    unfold _compare_and_alter_table
    rw [hdb]
    rfl
  have hfetchNotDDL : isSchemaChanging (DBAction.sqlFetch (schemaColsSql t)) = false := by
    show isDDL (schemaColsSql t) = false
    exact isDDL_schemaColsSql t
  have hfilter : (_compare_and_alter_table env n t sch).2.1.filter isSchemaChanging =
      (sch.columns.filter (fun c => !(existing.contains c.name))).map
        (fun c => DBAction.sqlExec (alterSql t c)) := by
    rw [hcmp2, List.filter_cons_of_neg (by simp [hfetchNotDDL]), hloop.2]
    generalize sch.columns.filter (fun c => !(existing.contains c.name)) = missing
    induction missing with
    | nil => rfl
    | cons c rest ih =>
        rw [List.flatMap_cons, List.map_cons]
        show ([DBAction.sqlExec (alterSql t c), DBAction.notifyReload] ++
            rest.flatMap (fun c => [DBAction.sqlExec (alterSql t c),
              DBAction.notifyReload])).filter isSchemaChanging = _
        rw [List.filter_append, ih]
        rw [show ([DBAction.sqlExec (alterSql t c),
            DBAction.notifyReload]).filter isSchemaChanging =
          [DBAction.sqlExec (alterSql t c)] from by
            simp [List.filter, isSchemaChanging, isDDL_alterSql t c]]
        rfl
  refine ⟨by rw [hcmp1]; exact hloop.1, hfilter, ?_⟩
  intro hall
  rw [hfilter]
  rw [show sch.columns.filter (fun c => !(existing.contains c.name)) = [] from
    List.filter_eq_nil_iff.mpr (fun c hc => by rw [hall c hc]; decide)]
  rfl

theorem reconcile_adds_exactly_missing_witness :
    (_compare_and_alter_table envMetrics 0 "metrics" schMetrics).1 = .ok ()
    ∧ (_compare_and_alter_table envMetrics 0 "metrics" schMetrics).2.1.filter
        isSchemaChanging =
        (schMetrics.columns.filter
          (fun c => !((["ts", "value"] : List String).contains c.name))).map
          (fun c => DBAction.sqlExec (alterSql "metrics" c)) :=
  ⟨(reconcile_adds_exactly_missing envMetrics "metrics" schMetrics 0
      [[("column_name", "ts")], [("column_name", "value")]] ["ts", "value"]
      rfl (fun _ => rfl) rfl (fun _ _ _ _ => rfl)).1,
   (reconcile_adds_exactly_missing envMetrics "metrics" schMetrics 0
      [[("column_name", "ts")], [("column_name", "value")]] ["ts", "value"]
      rfl (fun _ => rfl) rfl (fun _ _ _ _ => rfl)).2.1⟩

/- ### C2: the bounded recovery cycle after table creation -/

/-- C2 counterexample — in the scenario of the claim (table absent, create
succeeds, the re-check still reports absence) the call fails with no write,
but **two** metadata-reload signals are sent after the create statement: the
one `execute_query` emits for every DDL statement and the explicit
`NOTIFY pgrst` statement — not the single signal the claim states. -/
theorem upsert_double_reload_cex :
    (upsert_data envC2 "acme" "orders" dataW).1.success = false
    ∧ ((upsert_data envC2 "acme" "orders" dataW).2.filter isReloadSignal).length = 2
    ∧ ¬(((upsert_data envC2 "acme" "orders" dataW).2.filter
          isReloadSignal).length = 1) := by
  refine ⟨?_, ?_, ?_⟩ <;> decide

/-- C2 amended — when the destination table does not exist, `upsert_data`
performs exactly one bounded recovery cycle after issuing the create
statement: metadata-reload signalling consisting of **two** signals (one sent
by the query executor as part of executing the DDL, one explicit reload
statement), one (no-op) connection-invalidation call, one fixed settle delay,
one connection re-acquisition and one final existence re-check — and if that
single re-check still reports the table absent, the call fails
(`success = false`, zero rows) with no write statement attempted and no
second retry: the trace is exactly the nine actions below. -/
theorem upsert_single_recovery_cycle
    (env : DBEnv) (e t : String) (data : List Record) (sch : TableSchema)
    (emsg emsg2 : String) (rowsN : List Row)
    (hdata : data ≠ [])
    (hclient : env.clientOk = true)
    (hpool : env.poolOk = true)
    (hinfer : _infer_schema_from_data e t data = .ok sch)
    (hprobe0 : env.run 0 (probeSql t) = .error emsg)
    (hcreate : env.run 1 sch.get_create_table_sql = .ok [])
    (hnotify : env.run 2 notifySql = .ok rowsN)
    (hprobe3 : env.run 3 (probeSql t) = .error emsg2) :
    (upsert_data env e t data).1.success = false
    ∧ (upsert_data env e t data).1.count = 0
    ∧ (upsert_data env e t data).2 =
        [DBAction.connectClient, DBAction.sqlFetch (probeSql t),
         DBAction.sqlExec sch.get_create_table_sql, DBAction.notifyReload,
         DBAction.sqlFetch notifySql,
         DBAction.invalidateConn, DBAction.sleepSecs 1, DBAction.connectClient,
         DBAction.sqlFetch (probeSql t)]
    ∧ ∀ a ∈ (upsert_data env e t data).2, isWriteAction a = false := by
  obtain ⟨d, ds, rfl⟩ : ∃ d ds, data = d :: ds := by
    cases data with
    | nil => exact absurd rfl hdata
    | cons d ds => exact ⟨d, ds, rfl⟩
  have h0 := probe_err hpool hprobe0
  have hC := exec_ddl_ok hpool (isDDL_create_table_sql sch) hcreate
  have hN := exec_fetch_ok hpool isDDL_notifySql hnotify
  have h3 := probe_err hpool hprobe3
  have main : upsert_data env e t (d :: ds) =
      (⟨false, "Falha ao criar a tabela \x27" ++ t ++
          "\x27 mesmo após notificação e reconexão.", 0⟩,
        [DBAction.connectClient, DBAction.sqlFetch (probeSql t),
         DBAction.sqlExec sch.get_create_table_sql, DBAction.notifyReload,
         DBAction.sqlFetch notifySql,
         DBAction.invalidateConn, DBAction.sleepSecs 1, DBAction.connectClient,
         DBAction.sqlFetch (probeSql t)]) := by
    simp only [upsert_data, List.isEmpty_cons, Bool.false_eq_true, if_false,
      hclient, h0, hinfer, hC, hN, h3, Bool.true_eq_false]
    rfl
  refine ⟨by rw [main], by rw [main], by rw [main], ?_⟩
  intro a ha
  rw [main] at ha
  fin_cases ha <;> rfl

theorem upsert_single_recovery_cycle_witness :
    (upsert_data envC2 "acme" "orders" dataW).1.success = false
    ∧ (upsert_data envC2 "acme" "orders" dataW).1.count = 0
    ∧ (upsert_data envC2 "acme" "orders" dataW).2 =
        [DBAction.connectClient, DBAction.sqlFetch (probeSql "orders"),
         DBAction.sqlExec schW.get_create_table_sql, DBAction.notifyReload,
         DBAction.sqlFetch notifySql,
         DBAction.invalidateConn, DBAction.sleepSecs 1, DBAction.connectClient,
         DBAction.sqlFetch (probeSql "orders")] :=
  ⟨(upsert_single_recovery_cycle envC2 "acme" "orders" dataW schW
      "relation \x22orders\x22 does not exist" "relation \x22orders\x22 does not exist"
      [] (by decide) rfl rfl rfl rfl rfl rfl rfl).1,
   (upsert_single_recovery_cycle envC2 "acme" "orders" dataW schW
      "relation \x22orders\x22 does not exist" "relation \x22orders\x22 does not exist"
      [] (by decide) rfl rfl rfl rfl rfl rfl rfl).2.1,
   (upsert_single_recovery_cycle envC2 "acme" "orders" dataW schW
      "relation \x22orders\x22 does not exist" "relation \x22orders\x22 does not exist"
      [] (by decide) rfl rfl rfl rfl rfl rfl rfl).2.2.1⟩

/- ### The primary-key resolver and the final write -/

theorem pk_some {env : DBEnv} {n : Nat} {t c : String}
    (hpool : env.poolOk = true)
    (hrun : env.run n (pkSql t) = .ok [[("column_name", c)]]) :
    _get_primary_key_column env n t = (some c, [.sqlFetch (pkSql t)], n + 1) := by
  unfold _get_primary_key_column
  rw [exec_fetch_ok hpool (isDDL_pkSql t) hrun]
  rfl

theorem pk_none_of_empty {env : DBEnv} {n : Nat} {t : String}
    (hpool : env.poolOk = true) (hrun : env.run n (pkSql t) = .ok []) :
    _get_primary_key_column env n t = (none, [.sqlFetch (pkSql t)], n + 1) := by
  unfold _get_primary_key_column
  rw [exec_fetch_ok hpool (isDDL_pkSql t) hrun]

theorem pk_none_of_err {env : DBEnv} {n : Nat} {t msg : String}
    (hpool : env.poolOk = true) (hrun : env.run n (pkSql t) = .error msg) :
    _get_primary_key_column env n t = (none, [.sqlFetch (pkSql t)], n + 1) := by
  unfold _get_primary_key_column
  rw [exec_fetch_err hpool (isDDL_pkSql t) hrun]

/-- The final write always appends exactly one write action, selected by the
live resolver's result. -/
theorem doWrite_trace (env : DBEnv) (n : Nat) (t : String) (data : List Record) :
    (doWrite env n t data).2 = (_get_primary_key_column env n t).2.1 ++
      [match (_get_primary_key_column env n t).1 with
       | some c => DBAction.upsertWrite t c data
       | none => DBAction.insertWrite t data] := by
  unfold doWrite
  cases henv : env.writeRes with
  | error e => rfl
  | ok pr =>
      rcases pr with ⟨rows, errOpt⟩
      cases rows with
      | nil => rfl
      | cons a l => rfl

theorem doWrite_success {env : DBEnv} {n : Nat} {t : String} {data : List Record}
    {rows : List Row} {eo : Option String}
    (hw : env.writeRes = .ok (rows, eo)) (hr : rows ≠ []) :
    (doWrite env n t data).1.success = true := by
  unfold doWrite
  rw [hw]
  cases rows with
  | nil => exact absurd rfl hr
  | cons a l => rfl

/-- Shape of a run in which the table already exists and reconciliation
succeeds: the call ends with the final write step. -/
theorem upsert_exists_path
    (env : DBEnv) (e t : String) (d : Record) (ds : List Record)
    (sch : TableSchema) (probeRows : List Row)
    (hclient : env.clientOk = true)
    (hpool : env.poolOk = true)
    (hprobe : env.run 0 (probeSql t) = .ok probeRows)
    (hinfer : _infer_schema_from_data e t (d :: ds) = .ok sch)
    (halter : (_compare_and_alter_table env 1 t sch).1 = .ok ()) :
    upsert_data env e t (d :: ds) =
      ((doWrite env (_compare_and_alter_table env 1 t sch).2.2 t (d :: ds)).1,
        (DBAction.connectClient :: DBAction.sqlFetch (probeSql t) ::
          (_compare_and_alter_table env 1 t sch).2.1) ++
          (doWrite env (_compare_and_alter_table env 1 t sch).2.2 t (d :: ds)).2) := by
  have h0 := probe_ok hpool hprobe
  rcases hcmp : _compare_and_alter_table env 1 t sch with ⟨ra, trA, nA⟩
  have hra : ra = .ok () := by
    have := halter
    rw [hcmp] at this
    exact this
  subst hra
  simp only [upsert_data, List.isEmpty_cons, Bool.false_eq_true, if_false,
    hclient, h0, hinfer, hcmp, Bool.true_eq_false]
  rfl

/-- Shape of a run in which the table is first absent, creation and the
recovery cycle succeed, and the re-check confirms the table: the call ends
with the final write step at statement slot 4. -/
theorem upsert_create_path
    (env : DBEnv) (e t : String) (d : Record) (ds : List Record)
    (sch : TableSchema) (emsg : String) (rowsC rowsN probeRows2 : List Row)
    (hclient : env.clientOk = true)
    (hpool : env.poolOk = true)
    (hprobe0 : env.run 0 (probeSql t) = .error emsg)
    (hinfer : _infer_schema_from_data e t (d :: ds) = .ok sch)
    (hcreate : env.run 1 sch.get_create_table_sql = .ok rowsC)
    (hnotify : env.run 2 notifySql = .ok rowsN)
    (hprobe3 : env.run 3 (probeSql t) = .ok probeRows2) :
    upsert_data env e t (d :: ds) =
      ((doWrite env 4 t (d :: ds)).1,
        [DBAction.connectClient, DBAction.sqlFetch (probeSql t),
         DBAction.sqlExec sch.get_create_table_sql, DBAction.notifyReload,
         DBAction.sqlFetch notifySql,
         DBAction.invalidateConn, DBAction.sleepSecs 1, DBAction.connectClient,
         DBAction.sqlFetch (probeSql t)] ++ (doWrite env 4 t (d :: ds)).2) := by
  have h0 := probe_err hpool hprobe0
  have hC := exec_ddl_ok hpool (isDDL_create_table_sql sch) hcreate
  have hN := exec_fetch_ok hpool isDDL_notifySql hnotify
  have h3 := probe_ok hpool hprobe3
  simp only [upsert_data, List.isEmpty_cons, Bool.false_eq_true, if_false,
    hclient, h0, hinfer, hC, hN, h3, Bool.true_eq_false]
  rfl

/- ### C1: the write is driven by the live catalog primary key -/

/-- C1 — for every non-empty record batch, the write step of `upsert_data` is
driven by the primary-key column resolved from the live database catalog, not
by the inferred schema's guess (the batch — and hence the inferred guess — is
universally quantified and never consulted): on both the existing-table path
and the create-table path, if the catalog query returns a primary-key column
the final action is an upsert of all records with that live column as
conflict target, and if the catalog reports no primary-key constraint the
final action is a plain insert of all records. -/
theorem upsert_conflict_target_from_catalog
    (env : DBEnv) (e t : String) (data : List Record) (sch : TableSchema)
    (pkc : String) (probeRows : List Row)
    (hdata : data ≠ [])
    (hclient : env.clientOk = true)
    (hpool : env.poolOk = true)
    (hinfer : _infer_schema_from_data e t data = .ok sch) :
    (env.run 0 (probeSql t) = .ok probeRows →
      (_compare_and_alter_table env 1 t sch).1 = .ok () →
      ((∀ m, env.run m (pkSql t) = .ok [[("column_name", pkc)]]) →
        ∃ tr0, (upsert_data env e t data).2 =
          tr0 ++ [DBAction.upsertWrite t pkc data])
      ∧ ((∀ m, env.run m (pkSql t) = .ok []) →
        ∃ tr0, (upsert_data env e t data).2 =
          tr0 ++ [DBAction.insertWrite t data]))
    ∧ (∀ emsg rowsN probeRows2,
        env.run 0 (probeSql t) = .error emsg →
        env.run 1 sch.get_create_table_sql = .ok [] →
        env.run 2 notifySql = .ok rowsN →
        env.run 3 (probeSql t) = .ok probeRows2 →
        (env.run 4 (pkSql t) = .ok [[("column_name", pkc)]] →
          ∃ tr0, (upsert_data env e t data).2 =
            tr0 ++ [DBAction.upsertWrite t pkc data])
        ∧ (env.run 4 (pkSql t) = .ok [] →
          ∃ tr0, (upsert_data env e t data).2 =
            tr0 ++ [DBAction.insertWrite t data])) := by
  obtain ⟨d, ds, rfl⟩ : ∃ d ds, data = d :: ds := by
    cases data with
    | nil => exact absurd rfl hdata
    | cons d ds => exact ⟨d, ds, rfl⟩
  constructor
  · intro hprobe halter
    have hshape := upsert_exists_path env e t d ds sch probeRows
      hclient hpool hprobe hinfer halter
    constructor
    · intro hpk
      have hres := pk_some hpool (hpk (_compare_and_alter_table env 1 t sch).2.2)
      refine ⟨(DBAction.connectClient :: DBAction.sqlFetch (probeSql t) ::
        (_compare_and_alter_table env 1 t sch).2.1) ++ [.sqlFetch (pkSql t)], ?_⟩
      rw [hshape]
      show _ ++ (doWrite env (_compare_and_alter_table env 1 t sch).2.2 t (d :: ds)).2 = _
      rw [doWrite_trace, hres]
      simp
    · intro hpk
      have hres := pk_none_of_empty hpool (hpk (_compare_and_alter_table env 1 t sch).2.2)
      refine ⟨(DBAction.connectClient :: DBAction.sqlFetch (probeSql t) ::
        (_compare_and_alter_table env 1 t sch).2.1) ++ [.sqlFetch (pkSql t)], ?_⟩
      rw [hshape]
      show _ ++ (doWrite env (_compare_and_alter_table env 1 t sch).2.2 t (d :: ds)).2 = _
      rw [doWrite_trace, hres]
      simp
  · intro emsg rowsN probeRows2 hprobe0 hcreate hnotify hprobe3
    have hshape := upsert_create_path env e t d ds sch emsg [] rowsN probeRows2
      hclient hpool hprobe0 hinfer hcreate hnotify hprobe3
    constructor
    · intro hpk
      have hres := pk_some hpool hpk
      refine ⟨[DBAction.connectClient, DBAction.sqlFetch (probeSql t),
         DBAction.sqlExec sch.get_create_table_sql, DBAction.notifyReload,
         DBAction.sqlFetch notifySql,
         DBAction.invalidateConn, DBAction.sleepSecs 1, DBAction.connectClient,
         DBAction.sqlFetch (probeSql t)] ++ [.sqlFetch (pkSql t)], ?_⟩
      rw [hshape]
      show _ ++ (doWrite env 4 t (d :: ds)).2 = _
      rw [doWrite_trace, hres]
      simp
    · intro hpk
      have hres := pk_none_of_empty hpool hpk
      refine ⟨[DBAction.connectClient, DBAction.sqlFetch (probeSql t),
         DBAction.sqlExec sch.get_create_table_sql, DBAction.notifyReload,
         DBAction.sqlFetch notifySql,
         DBAction.invalidateConn, DBAction.sleepSecs 1, DBAction.connectClient,
         DBAction.sqlFetch (probeSql t)] ++ [.sqlFetch (pkSql t)], ?_⟩
      rw [hshape]
      show _ ++ (doWrite env 4 t (d :: ds)).2 = _
      rw [doWrite_trace, hres]
      simp

set_option maxRecDepth 40000 in
theorem upsert_conflict_target_from_catalog_witness :
    ∃ tr0, (upsert_data envPkFound "acme" "orders" dataW).2 =
      tr0 ++ [DBAction.upsertWrite "orders" "id" dataW] :=
  ((upsert_conflict_target_from_catalog envPkFound "acme" "orders" dataW schW
      "id" [] (by decide) rfl rfl rfl).1 rfl rfl).1 (fun _ => rfl)

/- ### C10: the primary-key resolver silently absorbs catalog failures -/

/-- C10 — `_get_primary_key_column` returns `none` both when the table has no
primary-key constraint and when the catalog query raises; consequently, in
`upsert_data` a catalog-query failure silently downgrades the write from an
identity-aware upsert to a plain append-only insert while the overall call
still succeeds. -/
theorem pk_resolver_error_downgrade (env : DBEnv) (t : String) :
    (∀ n msg, env.poolOk = true → env.run n (pkSql t) = .error msg →
      (_get_primary_key_column env n t).1 = none)
    ∧ (∀ n, env.poolOk = true → env.run n (pkSql t) = .ok [] →
      (_get_primary_key_column env n t).1 = none)
    ∧ (∀ e data sch probeRows msg rows eo,
        data ≠ [] → env.clientOk = true → env.poolOk = true →
        env.run 0 (probeSql t) = .ok probeRows →
        _infer_schema_from_data e t data = .ok sch →
        (_compare_and_alter_table env 1 t sch).1 = .ok () →
        (∀ m, env.run m (pkSql t) = .error msg) →
        env.writeRes = .ok (rows, eo) → rows ≠ [] →
        (upsert_data env e t data).1.success = true
        ∧ ∃ tr0, (upsert_data env e t data).2 =
            tr0 ++ [DBAction.insertWrite t data]) := by
  refine ⟨?_, ?_, ?_⟩
  · intro n msg hpool hrun
    rw [pk_none_of_err hpool hrun]
  · intro n hpool hrun
    rw [pk_none_of_empty hpool hrun]
  · intro e data sch probeRows msg rows eo hdata hclient hpool hprobe hinfer
      halter hpk hw hr
    obtain ⟨d, ds, rfl⟩ : ∃ d ds, data = d :: ds := by
      cases data with
      | nil => exact absurd rfl hdata
      | cons d ds => exact ⟨d, ds, rfl⟩
    have hshape := upsert_exists_path env e t d ds sch probeRows
      hclient hpool hprobe hinfer halter
    constructor
    · rw [hshape]
      exact doWrite_success hw hr
    · have hres := pk_none_of_err hpool (hpk (_compare_and_alter_table env 1 t sch).2.2)
      refine ⟨(DBAction.connectClient :: DBAction.sqlFetch (probeSql t) ::
        (_compare_and_alter_table env 1 t sch).2.1) ++ [.sqlFetch (pkSql t)], ?_⟩
      rw [hshape]
      show _ ++ (doWrite env (_compare_and_alter_table env 1 t sch).2.2 t (d :: ds)).2 = _
      rw [doWrite_trace, hres]
      simp

set_option maxRecDepth 40000 in
theorem pk_resolver_error_downgrade_witness :
    (_get_primary_key_column envPkErr 0 "orders").1 = none
    ∧ (upsert_data envPkErr "acme" "orders" dataW).1.success = true
    ∧ ∃ tr0, (upsert_data envPkErr "acme" "orders" dataW).2 =
        tr0 ++ [DBAction.insertWrite "orders" dataW] :=
  ⟨(pk_resolver_error_downgrade envPkErr "orders").1 0
      "timeout acquiring connection" rfl rfl,
    (pk_resolver_error_downgrade envPkErr "orders").2.2 "acme" dataW schW []
      "timeout acquiring connection" [[("id", "1")]] none (by decide) rfl rfl
      rfl rfl rfl (fun _ => rfl) rfl (by decide)⟩

/- ### C9: the existence probe is total and absorbs every failure -/

/-- C9 — `table_exists_postgres` never signals an error to its caller: it
returns `true` exactly when the probe call completes without raising, and
`false` for every raised exception — the undefined-table message and any
other failure alike — so an existence-check failure is indistinguishable from
an absent table, and (third conjunct) leads straight to a create attempt
(the create DDL statement is issued) rather than a distinct failure. -/
theorem table_exists_probe_total (env : DBEnv) (t : String) (n : Nat) :
    ((table_exists_postgres env n t).1 = true ↔
      ∃ r, (execute_query env n (probeSql t)).1 = .ok r)
    ∧ (∀ msg, (execute_query env n (probeSql t)).1 = .error msg →
        (table_exists_postgres env n t).1 = false)
    ∧ (∀ e data sch msg,
        data ≠ [] → env.clientOk = true → env.poolOk = true →
        env.run 0 (probeSql t) = .error msg →
        _infer_schema_from_data e t data = .ok sch →
        ∃ restTr, (upsert_data env e t data).2 =
          [DBAction.connectClient, DBAction.sqlFetch (probeSql t),
           DBAction.sqlExec sch.get_create_table_sql] ++ restTr) := by
  refine ⟨?_, ?_, ?_⟩
  · by_cases hpool : env.poolOk = true
    · cases hrun : env.run n (probeSql t) with
      | ok rows =>
          rw [probe_ok hpool hrun, exec_fetch_ok hpool (isDDL_probeSql t) hrun]
          exact ⟨fun _ => ⟨some rows, rfl⟩, fun _ => rfl⟩
      | error e0 =>
          rw [probe_err hpool hrun, exec_fetch_err hpool (isDDL_probeSql t) hrun]
          constructor
          · intro hf
            cases hf
          · rintro ⟨r2, hr2⟩
            cases hr2
    · have hpf : env.poolOk = false :=
        Bool.not_eq_true _ ▸ eq_false_of_ne_true hpool
      have hq : execute_query env n (probeSql t) = (.ok none, [], n) := by
        unfold execute_query
        rw [hpf]
        rfl
      have ht : table_exists_postgres env n t = (true, [], n) := by
        unfold table_exists_postgres
        rw [hq]
      rw [ht, hq]
      exact ⟨fun _ => ⟨none, rfl⟩, fun _ => rfl⟩
  · intro msg hmsg
    by_cases hpool : env.poolOk = true
    · cases hrun : env.run n (probeSql t) with
      | ok rows =>
          rw [exec_fetch_ok hpool (isDDL_probeSql t) hrun] at hmsg
          cases hmsg
      | error e0 =>
          rw [probe_err hpool hrun]
    · have hpf : env.poolOk = false :=
        Bool.not_eq_true _ ▸ eq_false_of_ne_true hpool
      have hq : execute_query env n (probeSql t) = (.ok none, [], n) := by
        unfold execute_query
        rw [hpf]
        rfl
      rw [hq] at hmsg
      cases hmsg
  · intro e data sch msg hdata hclient hpool hprobe hinfer
    obtain ⟨d, ds, rfl⟩ : ∃ d ds, data = d :: ds := by
      cases data with
      | nil => exact absurd rfl hdata
      | cons d ds => exact ⟨d, ds, rfl⟩
    have h0 := probe_err hpool hprobe
    cases hc1 : env.run 1 sch.get_create_table_sql with
    | error ec =>
        have hE := exec_ddl_err hpool (isDDL_create_table_sql sch) hc1
        refine ⟨[], ?_⟩
        simp only [upsert_data, List.isEmpty_cons, Bool.false_eq_true, if_false,
          hclient, h0, hinfer, hE, Bool.true_eq_false]
        rfl
    | ok rowsC =>
        have hC := exec_ddl_ok hpool (isDDL_create_table_sql sch) hc1
        cases hn2 : env.run 2 notifySql with
        | error en =>
            have hNE := exec_fetch_err hpool isDDL_notifySql hn2
            refine ⟨[DBAction.notifyReload, DBAction.sqlFetch notifySql], ?_⟩
            simp only [upsert_data, List.isEmpty_cons, Bool.false_eq_true,
              if_false, hclient, h0, hinfer, hC, hNE, Bool.true_eq_false,
              List.cons_append, List.nil_append]
            rfl
        | ok rowsN =>
            have hN := exec_fetch_ok hpool isDDL_notifySql hn2
            cases hr3 : env.run 3 (probeSql t) with
            | error e3 =>
                have h3 := probe_err hpool hr3
                refine ⟨[DBAction.notifyReload, DBAction.sqlFetch notifySql,
                  DBAction.invalidateConn, DBAction.sleepSecs 1,
                  DBAction.connectClient, DBAction.sqlFetch (probeSql t)], ?_⟩
                simp only [upsert_data, List.isEmpty_cons, Bool.false_eq_true,
                  if_false, hclient, h0, hinfer, hC, hN, h3, Bool.true_eq_false,
                  List.cons_append, List.nil_append]
                rfl
            | ok rows3 =>
                have hshape := upsert_create_path env e t d ds sch msg rowsC
                  rowsN rows3 hclient hpool hprobe hinfer hc1 hn2 hr3
                refine ⟨[DBAction.notifyReload, DBAction.sqlFetch notifySql,
                  DBAction.invalidateConn, DBAction.sleepSecs 1,
                  DBAction.connectClient, DBAction.sqlFetch (probeSql t)] ++
                    (doWrite env 4 t (d :: ds)).2, ?_⟩
                rw [hshape]
                simp

set_option maxRecDepth 40000 in
theorem table_exists_probe_total_witness :
    ((table_exists_postgres envC2 0 "orders").1 = true ↔
      ∃ r, (execute_query envC2 0 (probeSql "orders")).1 = .ok r)
    ∧ ((table_exists_postgres envC2 0 "orders").1 = false)
    ∧ ∃ restTr, (upsert_data envC2 "acme" "orders" dataW).2 =
        [DBAction.connectClient, DBAction.sqlFetch (probeSql "orders"),
         DBAction.sqlExec schW.get_create_table_sql] ++ restTr :=
  ⟨(table_exists_probe_total envC2 "orders" 0).1,
    (table_exists_probe_total envC2 "orders" 0).2.1
      "relation \x22orders\x22 does not exist" rfl,
    (table_exists_probe_total envC2 "orders" 0).2.2 "acme" dataW schW
      "relation \x22orders\x22 does not exist" (by decide) rfl rfl rfl rfl⟩
